import Mathlib

/-!
Verification of the Celestron Origin telescope backend
(`OriginBackend.cpp` / `OriginBackend.hpp`, plus the `OriginMount` adapter).

The backend is a single-threaded Qt event-loop program.  We embed it
shallowly: the mutable members of `OriginBackend` become a `State`
structure, every slot / public method becomes a pure function
`State -> args -> State x effects (x return value)`, and the set of
externally triggered entry points (WebSocket events, inbound text
messages, timer ticks, HTTP completions, public calls) becomes an event
type `Ev` with a step function `exec`.  Reachability from the
constructor-produced state is the inductive `Reach`.

Modelling conventions:
* C++ `double` is modelled as `Rat` (`ℚ`); `M_PI` is the exact rational
  value of the binary64 constant `M_PI`.  No claim in this development
  depends on rounding of `double` arithmetic.
* Qt JSON values (`QJsonValue`) are modelled by `JVal` (the program only
  ever builds and reads flat objects, so nested objects/arrays are not
  needed); `QJsonObject` is a key-sorted association list, as in Qt, with
  `jinsert` as `operator[]`-assignment.  Serialisation to compact JSON
  text and parsing back are modelled at the lexical-token level
  (`Tok`): Qt renders finite doubles with a shortest round-trip decimal
  form, so number tokens are injective and the token list is a faithful
  picture of the compact text.
* Qt string case-insensitive comparison is modelled by ASCII lowering
  (the file paths the program classifies are ASCII).
* File-system logging and image persistence (`logWebSocketMessage`,
  `saveImageToFile`) have no effect on the session state and are elided.
* `connectToTelescope`'s nested wait loop and `singleShot` (both block
  in a nested event loop and touch none of the state studied here beyond
  `m_connectedHost`/`m_connectedPort`, which `connectToTelescope` sets
  before waiting) are represented by the `callConnect` event plus the
  asynchronous `wsConnected` transport event.
* As a history variable, `cmdIds` records, in order, every sequence id
  the program attaches to a built outbound command (`m_nextSequenceId++`
  sites); it is write-only and does not influence behaviour.
-/

namespace Origin

/-! ## JSON values and objects (QJsonValue / QJsonObject) -/

inductive JVal where
  | jstr (s : String)
  | jnum (q : ℚ)
  | jbool (b : Bool)
  | jnull
deriving DecidableEq

abbrev JObject := List (String × JVal)

def jlookup : JObject → String → Option JVal
  | [], _ => none
  | (k, v) :: rest, key => if key = k then some v else jlookup rest key

/-- QString `operator<`, code-point order; the keys used by the program
are ASCII so this agrees with Qt. -/
def strLtB (a b : List Char) : Bool :=
  match a, b with
  | [], [] => false
  | [], _ :: _ => true
  | _ :: _, [] => false
  | c :: cs, d :: ds =>
    if c.toNat < d.toNat then true
    else if d.toNat < c.toNat then false
    else strLtB cs ds

/-- `QJsonObject::operator[]` assignment: insert or replace, keeping the
object sorted by key as Qt does. -/
def jinsert : JObject → String → JVal → JObject
  | [], k, v => [(k, v)]
  | (k0, v0) :: rest, k, v =>
    if k = k0 then (k, v) :: rest
    else if strLtB k.data k0.data then (k, v) :: (k0, v0) :: rest
    else (k0, v0) :: jinsert rest k v

/-- `obj[k].toString()`: default `""` for missing / non-string values. -/
def jToString (o : JObject) (k : String) : String :=
  match jlookup o k with
  | some (JVal.jstr s) => s
  | _ => ""

/-- `obj[k].toDouble()`: default `0` for missing / non-number values. -/
def jToDouble (o : JObject) (k : String) : ℚ :=
  match jlookup o k with
  | some (JVal.jnum q) => q
  | _ => 0

/-- `obj[k].toInt()`: the value when it is a number representing an exact
integer, default `0` otherwise. -/
def jToInt (o : JObject) (k : String) : Int :=
  match jlookup o k with
  | some (JVal.jnum q) => if q.den = 1 then q.num else 0
  | _ => 0

/-- `obj[k].toBool()`: default `false`. -/
def jToBool (o : JObject) (k : String) : Bool :=
  match jlookup o k with
  | some (JVal.jbool b) => b
  | _ => false

/-- `obj.contains(k)`. -/
def jContains (o : JObject) (k : String) : Bool :=
  (jlookup o k).isSome

/-! ## Compact JSON text, at the lexical-token level -/

inductive Tok where
  | lbrace
  | rbrace
  | colon
  | comma
  | tstr (s : String)
  | tnum (q : ℚ)
  | tbool (b : Bool)
  | tnull
deriving DecidableEq

def serializeVal : JVal → Tok
  | JVal.jstr s => Tok.tstr s
  | JVal.jnum q => Tok.tnum q
  | JVal.jbool b => Tok.tbool b
  | JVal.jnull => Tok.tnull

def serializeEntries : JObject → List Tok
  | [] => [Tok.rbrace]
  | [(k, v)] => [Tok.tstr k, Tok.colon, serializeVal v, Tok.rbrace]
  | (k, v) :: e :: rest =>
    Tok.tstr k :: Tok.colon :: serializeVal v :: Tok.comma :: serializeEntries (e :: rest)

/-- `QJsonDocument(obj).toJson(QJsonDocument::Compact)`, token level. -/
def serializeObj (o : JObject) : List Tok :=
  Tok.lbrace :: serializeEntries o

def parseVal : Tok → Option JVal
  | Tok.tstr s => some (JVal.jstr s)
  | Tok.tnum q => some (JVal.jnum q)
  | Tok.tbool b => some (JVal.jbool b)
  | Tok.tnull => some JVal.jnull
  | _ => none

def parseEntries : List Tok → Option (JObject × List Tok)
  | Tok.tstr k :: Tok.colon :: t :: Tok.comma :: rest =>
    match parseVal t, parseEntries rest with
    | some v, some (es, r) => some ((k, v) :: es, r)
    | _, _ => none
  | Tok.tstr k :: Tok.colon :: t :: Tok.rbrace :: rest =>
    match parseVal t with
    | some v => some ([(k, v)], rest)
    | none => none
  | _ => none

/-- `QJsonDocument::fromJson` on a compact object document, token level:
returns the parsed object and the remaining tokens. -/
def parseObj : List Tok → Option (JObject × List Tok)
  | Tok.lbrace :: Tok.rbrace :: rest => some ([], rest)
  | Tok.lbrace :: rest => parseEntries rest
  | _ => none

/-! ## Numeric and string helpers -/

/-- Exact rational value of the binary64 constant `M_PI`. -/
def MPI : ℚ := 884279719003555 / 281474976710656

def hoursToRadians (hours : ℚ) : ℚ := hours * MPI / 12

def degreesToRadians (degrees : ℚ) : ℚ := degrees * MPI / 180

def radiansToHours (radians : ℚ) : ℚ := radians * 12 / MPI

def radiansToDegrees (radians : ℚ) : ℚ := radians * 180 / MPI

def lowerChar (c : Char) : Char :=
  if 'A' ≤ c && c ≤ 'Z' then Char.ofNat (c.toNat + 32) else c

def lowerStr (s : String) : String := String.mk (s.data.map lowerChar)

/-- `QString::endsWith(suf, Qt::CaseInsensitive)` (ASCII folding). -/
def endsWithCI (s suf : String) : Bool :=
  (lowerStr suf).data.isSuffixOf (lowerStr s).data

/-- The snapshot/live-frame classification the backend applies to remote
file paths: `.tiff` / `.tif` (case-insensitive) means TIFF snapshot. -/
def isTiffPath (p : String) : Bool :=
  endsWithCI p ".tiff" || endsWithCI p ".tif"

/-! ## Session state (the mutable members of `OriginBackend`) -/

/-- `OriginBackend::CameraState`. -/
inductive CameraState where
  | Idle
  | Exposing
  | Reading
  | Error
deriving DecidableEq

/-- `OriginBackend::TelescopeStatus` with its in-class initialisers. -/
structure TelescopeStatus where
  altPosition : ℚ := 0
  azPosition : ℚ := 0
  raPosition : ℚ := 0
  decPosition : ℚ := 0
  isConnected : Bool := false
  isLogicallyConnected : Bool := false
  isCameraLogicallyConnected : Bool := false
  isSlewing : Bool := false
  isTracking : Bool := false
  isParked : Bool := false
  isAligned : Bool := false
  currentOperation : String := "Idle"
  temperature : ℚ := 20
deriving DecidableEq

/-- Context attached to an HTTP reply issued by `requestImage` (stored as
dynamic properties on the `QNetworkReply`). -/
structure ReqCtx where
  filePath : String
  isTiff : Bool
  ra : ℚ
  dec : ℚ
  exposure : ℚ
deriving DecidableEq

instance : Inhabited ReqCtx := ⟨⟨"", false, 0, 0, 0⟩⟩

/-- The session state: every mutable member of `OriginBackend` the claims
touch, plus the transport/timer/in-flight-download state of its
collaborators, plus the `cmdIds` history variable. -/
structure State where
  -- QWebSocket physical state: `isValid()` and `state() == ConnectedState`
  wsValid : Bool
  wsConn : Bool
  -- QTimer `isActive()` for m_statusTimer and m_pingTimer
  statusTimerActive : Bool
  pingTimerActive : Bool
  m_status : TelescopeStatus
  m_cameraState : CameraState
  m_lastImageData : List Nat
  m_lastImageFormat : String
  m_lastExposureDuration : ℚ
  m_lastExposureStartTime : String
  m_currentGain : Int
  m_lastImagePath : String
  m_connectedHost : String
  m_connectedPort : Nat
  m_isExposing : Bool
  m_imageReady : Bool
  m_lastImage : Option (List Nat)
  m_pendingCommands : List (Int × String)
  m_nextSequenceId : Nat
  m_cameraManualMode : Bool
  m_currentExposure : ℚ
  m_currentISO : Int
  m_snapshotInProgress : Bool
  m_lastImageRa : ℚ
  m_lastImageDec : ℚ
  m_lastImageExposure : ℚ
  m_lastImageFilePath : String
  m_statusRotation : Nat
  m_telescopeIP : String
  m_saveImagesEnabled : Bool
  -- in-flight HTTP requests of m_imageDownloader (remote paths), whose
  -- completions are dispatched to onImageDownloadFinished
  dlPending : List String
  -- in-flight HTTP requests made by requestImage (per-request manager
  -- with an inline completion lambda)
  reqPending : List ReqCtx
  -- history variable: every sequence id attached to a built command
  cmdIds : List Nat
deriving DecidableEq

/-- The state produced by the `OriginBackend` constructor. -/
def initState : State where
  wsValid := false
  wsConn := false
  statusTimerActive := false
  pingTimerActive := false
  m_status := {}
  m_cameraState := CameraState.Idle
  m_lastImageData := []
  m_lastImageFormat := ""
  m_lastExposureDuration := 0
  m_lastExposureStartTime := ""
  m_currentGain := 200
  m_lastImagePath := ""
  m_connectedHost := ""
  m_connectedPort := 80
  m_isExposing := false
  m_imageReady := false
  m_lastImage := none
  m_pendingCommands := []
  m_nextSequenceId := 2000
  m_cameraManualMode := false
  m_currentExposure := 1 / 10
  m_currentISO := 200
  m_snapshotInProgress := false
  m_lastImageRa := 0
  m_lastImageDec := 0
  m_lastImageExposure := 0
  m_lastImageFilePath := ""
  m_statusRotation := 0
  m_telescopeIP := ""
  m_saveImagesEnabled := true
  dlPending := []
  reqPending := []
  cmdIds := []

/-! ## Observable effects of a step -/

inductive Effect where
  /-- a text message written on the WebSocket control channel -/
  | wireSend (msg : JObject)
  /-- an HTTP GET issued through `m_imageDownloader` (`downloadImage`) -/
  | httpImageDownloader (path : String)
  /-- an HTTP GET issued through the ad-hoc manager in `requestImage` -/
  | httpRequestImage (path : String)
  /-- an emitted Qt signal (payloads elided) -/
  | sig (name : String)
deriving DecidableEq

/-- `true` when the effect list contains no HTTP GET on either channel. -/
def noHttpFetch (effs : List Effect) : Bool :=
  effs.all fun e =>
    match e with
    | Effect.httpImageDownloader _ => false
    | Effect.httpRequestImage _ => false
    | _ => true

/-- Sequence ids of the commands actually written on the wire. -/
def wireSeqIds (effs : List Effect) : List Int :=
  effs.filterMap fun e =>
    match e with
    | Effect.wireSend o => some (jToInt o "SequenceID")
    | _ => none

/-! ## Connection predicates -/

/-- `isConnected()`: `m_webSocket->isValid() && state == ConnectedState`. -/
def isConnectedF (s : State) : Bool := s.wsValid && s.wsConn

/-- `isLogicallyConnected()`. -/
def isLogicallyConnectedF (s : State) : Bool :=
  isConnectedF s && s.m_status.isLogicallyConnected

/-! ## Command construction and sending -/

/-- `m_nextSequenceId++`, also logging the consumed id in the `cmdIds`
history variable. -/
def consumeSeq (s : State) : Nat × State :=
  (s.m_nextSequenceId,
   { s with
     m_nextSequenceId := s.m_nextSequenceId + 1
     cmdIds := s.cmdIds ++ [s.m_nextSequenceId] })

/-- The JSON object `createCommand` builds, given the sequence id it
draws: fixed fields first, then the caller parameters merged in. -/
def createCommandJ (command destination : String) (params : JObject) (sid : Nat) : JObject :=
  let base :=
    jinsert (jinsert (jinsert (jinsert (jinsert []
      "Command" (JVal.jstr command))
      "Destination" (JVal.jstr destination))
      "SequenceID" (JVal.jnum (sid : ℚ)))
      "Source" (JVal.jstr "AlpacaServer"))
      "Type" (JVal.jstr "Command")
  params.foldl (fun acc kv => jinsert acc kv.1 kv.2) base

/-- `createCommand`: draws the next sequence id and builds the object. -/
def createCommandF (s : State) (command destination : String) (params : JObject) :
    JObject × State :=
  let (sid, s1) := consumeSeq s
  (createCommandJ command destination params sid, s1)

/-- `QMap<int,QString>::operator[]` assignment (insert or replace). -/
def mapInsert : List (Int × String) → Int → String → List (Int × String)
  | [], k, v => [(k, v)]
  | (k0, v0) :: rest, k, v =>
    if k = k0 then (k, v) :: rest else (k0, v0) :: mapInsert rest k v

/-- `sendCommand`: builds the command (always consuming a sequence id),
then — only if the control channel is connected — writes it and records
it in the pending table; otherwise the send is silently dropped. -/
def sendCommandF (s : State) (command destination : String) (params : JObject) :
    State × List Effect :=
  let (cmd, s1) := createCommandF s command destination params
  if isConnectedF s1 then
    let sid := jToInt cmd "SequenceID"
    ({ s1 with m_pendingCommands := mapInsert s1.m_pendingCommands sid command },
     [Effect.wireSend cmd])
  else
    (s1, [])

/-! ## Status refresh -/

/-- The structured mount/environment fields the external
`TelescopeDataProcessor` collaborator exposes via `getData()`. -/
structure ProcData where
  isTracking : Bool
  isGotoOver : Bool
  isAligned : Bool
  enc0 : ℚ
  enc1 : ℚ
  ambientTemperature : ℚ
deriving DecidableEq

/-- `updateStatusFromProcessor`. -/
def updateStatusFromProcessorF (s : State) (d : ProcData) : State × List Effect :=
  let isSlewing := !d.isGotoOver
  let op :=
    if isSlewing then "Slewing"
    else if d.isTracking then "Tracking"
    else "Idle"
  ({ s with
     m_status :=
       { s.m_status with
         isTracking := d.isTracking
         isSlewing := isSlewing
         isAligned := d.isAligned
         raPosition := radiansToHours d.enc0
         decPosition := radiansToDegrees d.enc1
         altPosition := 45
         azPosition := 180
         temperature := d.ambientTemperature
         currentOperation := op } },
   [Effect.sig "statusUpdated"])

/-- `updateStatus`: round-robin status query selected by
`m_statusRotation % 3`, then the counter is advanced; a no-op while
disconnected. -/
def updateStatusF (s : State) : State × List Effect :=
  if isConnectedF s then
    let r :=
      match s.m_statusRotation % 3 with
      | 0 => sendCommandF s "GetStatus" "Mount" []
      | 1 => sendCommandF s "GetStatus" "Environment" []
      | _ => sendCommandF s "GetCaptureParameters" "Camera" []
    ({ r.1 with m_statusRotation := r.1.m_statusRotation + 1 }, r.2)
  else
    (s, [])

/-! ## Image download pipeline -/

/-- `downloadImage`: issues an HTTP GET through `m_imageDownloader`, but
only when `m_telescopeIP` is non-empty. -/
def downloadImageF (s : State) (remotePath : String) : State × List Effect :=
  if s.m_telescopeIP ≠ "" then
    ({ s with dlPending := s.dlPending ++ [remotePath] },
     [Effect.httpImageDownloader remotePath])
  else
    (s, [])

/-- `requestImage`: issues an HTTP GET through a fresh manager, storing
the path / TIFF flag / RA / Dec / exposure as reply context; a no-op when
no host is recorded. -/
def requestImageF (s : State) (filePath : String) : State × List Effect :=
  if s.m_connectedHost = "" then (s, [])
  else
    let ctx : ReqCtx :=
      { filePath := filePath
        isTiff := isTiffPath filePath
        ra := s.m_lastImageRa
        dec := s.m_lastImageDec
        exposure := s.m_lastImageExposure }
    ({ s with reqPending := s.reqPending ++ [ctx] },
     [Effect.httpRequestImage filePath])

/-- `handleNewImageReady`: camera goes to `Reading`, the exposure-complete
signal fires, the remote path is recorded and `downloadImage` runs. -/
def handleNewImageReadyF (s : State) (data : JObject) : State × List Effect :=
  let fileLocation := jToString data "FileLocation"
  let s1 := { s with m_cameraState := CameraState.Reading, m_lastImagePath := fileLocation }
  let (s2, ef) := downloadImageF s1 fileLocation
  (s2, [Effect.sig "cameraStateChanged", Effect.sig "exposureComplete"] ++ ef)

/-! ## Inbound message dispatch (`onTextMessageReceived`) -/

/-- An inbound WebSocket text message as the dispatcher sees it:
`obj` is the parsed JSON payload (`none` when the text is not a JSON
object, in which case the dispatcher returns at once), and the `proc*`
fields describe what the opaque `TelescopeDataProcessor` collaborator
does with the packet: whether `processJsonPacket` returns true, whether
it emits `mountStatusUpdated` (which the constructor has wired to the
`updateStatus` slot), and the structured data `getData()` then holds. -/
structure InMsg where
  obj : Option JObject
  procProcessed : Bool
  procEmitsMountUpdate : Bool
  procData : ProcData
deriving DecidableEq

/-- The `Type=Response` handling block of `onTextMessageReceived`
(after the error-code gate has passed). -/
def responseBlockF (s : State) (obj : JObject) (command : String) : State × List Effect :=
  if command = "GetCaptureParameters" then
    ({ s with
       m_currentExposure := jToDouble obj "Exposure"
       m_currentISO := jToInt obj "ISO" },
     [Effect.sig "captureParametersChanged"])
  else if command = "GetEnableManual" ∨ command = "SetEnableManual" ∨
          command = "SetEnableAuto" then
    if jContains obj "IsManual" then
      ({ s with m_cameraManualMode := jToBool obj "IsManual" },
       [Effect.sig "cameraModeChanged"])
    else (s, [])
  else if command = "GetCameraInfo" then
    (s, [Effect.sig "cameraInfoReceived"])
  else (s, [])

/-- The legacy `Source=ImageServer` image-notification block at the end
of `onTextMessageReceived`: records the notification metadata and
triggers `requestImage`, unless a snapshot is in progress and the file
is not a TIFF, in which case the live frame is skipped. -/
def imageServerBlockF (s : State) (obj : JObject) (command type source : String) :
    State × List Effect :=
  if source = "ImageServer" ∧ command = "NewImageReady" ∧ type = "Notification" then
    let filePath := jToString obj "FileLocation"
    if filePath ≠ "" then
      let s1 :=
        { s with
          m_lastImageRa := jToDouble obj "Ra"
          m_lastImageDec := jToDouble obj "Dec"
          m_lastImageExposure := jToDouble obj "ExposureTime"
          m_lastImageFilePath := filePath }
      if !isTiffPath filePath && s1.m_snapshotInProgress then (s1, [])
      else requestImageF s1 filePath
    else (s, [])
  else (s, [])

/-- The `processJsonPacket` call: if the processor emits
`mountStatusUpdated` during it, the constructor wiring synchronously runs
the `updateStatus` slot. -/
def procStageF (s : State) (m : InMsg) : State × List Effect :=
  if m.procEmitsMountUpdate then updateStatusF s else (s, [])

/-- `if (processed) updateStatusFromProcessor();` -/
def procStage2F (s : State) (m : InMsg) : State × List Effect :=
  if m.procProcessed then updateStatusFromProcessorF s m.procData else (s, [])

/-- `if (type == "Notification" && command == "NewImageReady") handleNewImageReady(obj);` -/
def notifStageF (s : State) (obj : JObject) (command type : String) : State × List Effect :=
  if type = "Notification" ∧ command = "NewImageReady" then handleNewImageReadyF s obj
  else (s, [])

/-- The `Type=Response` dispatch (after the error gate). -/
def respStageF (s : State) (obj : JObject) (command type : String) : State × List Effect :=
  if type = "Response" then responseBlockF s obj command else (s, [])

/-- `onTextMessageReceived`.  Non-object payloads are dropped; the packet
is offered to the data processor (whose `mountStatusUpdated` signal, if
emitted, synchronously runs the `updateStatus` slot, and whose positive
return refreshes the telescope status); then the dispatcher classifies by
`(Type, Command, Source)`.  A `Response` with non-zero `ErrorCode` stops
all further processing of the message. -/
def onTextMessageReceivedF (s : State) (m : InMsg) : State × List Effect :=
  match m.obj with
  | none => (s, [])
  | some obj =>
    let p1 := procStageF s m
    let p2 := procStage2F p1.1 m
    let command := jToString obj "Command"
    let type := jToString obj "Type"
    let source := jToString obj "Source"
    let p3 := notifStageF p2.1 obj command type
    if type = "Response" ∧ jToInt obj "ErrorCode" ≠ 0 then
      (p3.1, p1.2 ++ p2.2 ++ p3.2)
    else
      let p4 := respStageF p3.1 obj command type
      let p5 := imageServerBlockF p4.1 obj command type source
      (p5.1, p1.2 ++ p2.2 ++ p3.2 ++ p4.2 ++ p5.2)

/-! ## Transport lifecycle -/

/-- `onWebSocketConnected` (run when the transport reports connected):
physical flag set, both timers started, an initial mount status query
sent, and the connected signal raised. -/
def onWebSocketConnectedF (s : State) : State × List Effect :=
  let s0 := { s with wsValid := true, wsConn := true }
  let s1 :=
    { s0 with
      m_status := { s0.m_status with isConnected := true }
      statusTimerActive := true
      pingTimerActive := true }
  let (s2, ef) := sendCommandF s1 "GetStatus" "Mount" []
  (s2, ef ++ [Effect.sig "connected"])

/-- `onWebSocketDisconnected` (run on any transport disconnect, whether
caller-initiated or a link failure). -/
def onWebSocketDisconnectedF (s : State) : State × List Effect :=
  let s0 := { s with wsValid := false, wsConn := false }
  let s1 :=
    { s0 with
      m_status :=
        { s0.m_status with isConnected := false, isLogicallyConnected := false }
      statusTimerActive := false
      pingTimerActive := false }
  (s1, [Effect.sig "disconnected"])

/-- `disconnectFromTelescope` (caller-initiated): closes the socket if
open, stops both timers, forces all three status flags false and raises
the disconnected signal. -/
def disconnectFromTelescopeF (s : State) : State × List Effect :=
  let s0 :=
    if s.wsValid && s.wsConn then { s with wsValid := false, wsConn := false } else s
  let s1 :=
    { s0 with
      statusTimerActive := false
      pingTimerActive := false
      m_status :=
        { s0.m_status with
          isConnected := false
          isLogicallyConnected := false
          isCameraLogicallyConnected := false } }
  (s1, [Effect.sig "disconnected"])

/-- `connectToTelescope` up to its wait loop: no-op if already connected,
otherwise records host/port and opens the socket (the transport's
connected event arrives separately as `Ev.wsConnected`). -/
def connectToTelescopeF (s : State) (host : String) (port : Nat) : State × List Effect :=
  if isConnectedF s then (s, [])
  else ({ s with m_connectedHost := host, m_connectedPort := port }, [])

/-! ## Public operation surface -/

/-- `gotoPosition`. -/
def gotoPositionF (s : State) (ra dec : ℚ) : State × List Effect × Bool :=
  if !isConnectedF s then (s, [], false)
  else
    let params :=
      jinsert (jinsert [] "Ra" (JVal.jnum (hoursToRadians ra)))
        "Dec" (JVal.jnum (degreesToRadians dec))
    let (s1, ef) := sendCommandF s "GotoRaDec" "Mount" params
    ({ s1 with
       m_status := { s1.m_status with isSlewing := true, currentOperation := "Slewing" } },
     ef, true)

/-- `syncPosition`. -/
def syncPositionF (s : State) (ra dec : ℚ) : State × List Effect × Bool :=
  if !isConnectedF s then (s, [], false)
  else
    let params :=
      jinsert (jinsert [] "Ra" (JVal.jnum (hoursToRadians ra)))
        "Dec" (JVal.jnum (degreesToRadians dec))
    let (s1, ef) := sendCommandF s "SyncToRaDec" "Mount" params
    (s1, ef, true)

/-- `takeSnapshot`. -/
def takeSnapshotF (s : State) (exposure : ℚ) (iso : Int) : State × List Effect × Bool :=
  if !isConnectedF s then (s, [], false)
  else
    let s1 := { s with m_snapshotInProgress := true }
    let params :=
      jinsert (jinsert [] "ExposureTime" (JVal.jnum exposure))
        "ISO" (JVal.jnum (iso : ℚ))
    let (s2, ef) := sendCommandF s1 "RunSampleCapture" "TaskController" params
    (s2, ef, true)

/-- `setCameraManualMode`. -/
def setCameraManualModeF (s : State) : State × List Effect × Bool :=
  if !isConnectedF s then (s, [], false)
  else
    let (s1, ef) := sendCommandF s "SetEnableManual" "LiveStream" []
    (s1, ef, true)

/-- `setCameraAutoMode`. -/
def setCameraAutoModeF (s : State) : State × List Effect × Bool :=
  if !isConnectedF s then (s, [], false)
  else
    let (s1, ef) := sendCommandF s "SetEnableAuto" "LiveStream" []
    (s1, ef, true)

/-- `getCameraMode`. -/
def getCameraModeF (s : State) : State × List Effect × Bool :=
  if !isConnectedF s then (s, [], false)
  else
    let (s1, ef) := sendCommandF s "GetEnableManual" "LiveStream" []
    (s1, ef, true)

/-- `getCaptureParameters`. -/
def getCaptureParametersF (s : State) : State × List Effect × Bool :=
  if !isConnectedF s then (s, [], false)
  else
    let (s1, ef) := sendCommandF s "GetCaptureParameters" "Camera" []
    (s1, ef, true)

/-- `setCaptureParameters`. -/
def setCaptureParametersF (s : State) (exposure : ℚ) (iso : Int) :
    State × List Effect × Bool :=
  if !isConnectedF s then (s, [], false)
  else
    let params :=
      jinsert (jinsert [] "Exposure" (JVal.jnum exposure)) "ISO" (JVal.jnum (iso : ℚ))
    let (s1, ef) := sendCommandF s "SetCaptureParameters" "Camera" params
    (s1, ef, true)

/-- `getCameraInfo`. -/
def getCameraInfoF (s : State) : State × List Effect × Bool :=
  if !isConnectedF s then (s, [], false)
  else
    let (s1, ef) := sendCommandF s "GetCameraInfo" "Camera" []
    (s1, ef, true)

/-- `abortMotion`. -/
def abortMotionF (s : State) : State × List Effect × Bool :=
  if !isConnectedF s then (s, [], false)
  else
    let (s1, ef) := sendCommandF s "AbortAxisMovement" "Mount" []
    ({ s1 with
       m_status := { s1.m_status with isSlewing := false, currentOperation := "Idle" } },
     ef, true)

/-- `parkMount`. -/
def parkMountF (s : State) : State × List Effect × Bool :=
  if !isConnectedF s then (s, [], false)
  else
    let (s1, ef) := sendCommandF s "Park" "Mount" []
    ({ s1 with
       m_status := { s1.m_status with isParked := true, currentOperation := "Parking" } },
     ef, true)

/-- `unparkMount`. -/
def unparkMountF (s : State) : State × List Effect × Bool :=
  if !isConnectedF s then (s, [], false)
  else
    let (s1, ef) := sendCommandF s "Unpark" "Mount" []
    ({ s1 with
       m_status :=
         { s1.m_status with isParked := false, currentOperation := "Unparking" } },
     ef, true)

/-- `initializeTelescope` (`dateStr` / `timeStr` stand for the current
date and time the program reads from the clock). -/
def initializeTelescopeF (s : State) (dateStr timeStr : String) :
    State × List Effect × Bool :=
  if !isConnectedF s then (s, [], false)
  else
    let params :=
      jinsert (jinsert (jinsert (jinsert (jinsert (jinsert []
        "Date" (JVal.jstr dateStr))
        "Time" (JVal.jstr timeStr))
        "TimeZone" (JVal.jstr "UTC"))
        "Latitude" (JVal.jnum (degreesToRadians (261 / 5))))
        "Longitude" (JVal.jnum (degreesToRadians 0)))
        "FakeInitialize" (JVal.jbool false)
    let (s1, ef) := sendCommandF s "RunInitialize" "TaskController" params
    ({ s1 with m_status := { s1.m_status with currentOperation := "Initializing" } },
     ef, true)

/-- `moveDirection`. -/
def moveDirectionF (s : State) (direction speed : Int) : State × List Effect × Bool :=
  if !isConnectedF s then (s, [], false)
  else
    let axisDir : Option (String × String) :=
      if direction = 0 then some ("Dec", "Positive")
      else if direction = 1 then some ("Dec", "Negative")
      else if direction = 2 then some ("Ra", "Positive")
      else if direction = 3 then some ("Ra", "Negative")
      else none
    match axisDir with
    | none => (s, [], false)
    | some (axisName, directionName) =>
      let params :=
        jinsert (jinsert (jinsert []
          "Axis" (JVal.jstr axisName))
          "Direction" (JVal.jstr directionName))
          "Speed" (JVal.jnum (speed : ℚ))
      let (s1, ef) := sendCommandF s "MoveAxis" "Mount" params
      (s1, ef, true)

/-- `setTracking`. -/
def setTrackingF (s : State) (enabled : Bool) : State × List Effect × Bool :=
  if !isConnectedF s then (s, [], false)
  else
    let command := if enabled then "StartTracking" else "StopTracking"
    let (s1, ef) := sendCommandF s command "Mount" []
    ({ s1 with m_status := { s1.m_status with isTracking := enabled } }, ef, true)

/-- `setConnected` (inline in the header): the logical flag can only be
set true while physically connected. -/
def setConnectedF (s : State) (connected : Bool) : State × List Effect :=
  if connected && !s.m_status.isConnected then (s, [])
  else ({ s with m_status := { s.m_status with isLogicallyConnected := connected } }, [])

/-- `setCameraConnected`. -/
def setCameraConnectedF (s : State) (connected : Bool) : State × List Effect :=
  if connected && !s.m_status.isConnected then (s, [])
  else
    ({ s with m_status := { s.m_status with isCameraLogicallyConnected := connected } },
     [])

/-- `startExposure` (`now` stands for the UTC timestamp read from the
clock).  The command is built inline — not via `sendCommand` — and the
send plus the `Idle → Exposing` transition are guarded on the socket
being valid. -/
def startExposureF (s : State) (duration : ℚ) (iso : Int) (now : String) :
    State × List Effect × Bool :=
  if !isLogicallyConnectedF s then (s, [], false)
  else if s.m_cameraState ≠ CameraState.Idle then (s, [], false)
  else
    let s1 :=
      { s with
        m_lastExposureDuration := duration
        m_currentGain := iso
        m_lastExposureStartTime := now
        m_imageReady := false
        m_lastImageData := [] }
    let (sid, s2) := consumeSeq s1
    let cmd :=
      jinsert (jinsert (jinsert (jinsert (jinsert (jinsert (jinsert []
        "Command" (JVal.jstr "RunSampleCapture"))
        "Destination" (JVal.jstr "TaskController"))
        "Source" (JVal.jstr "AlpacaServer"))
        "SequenceID" (JVal.jnum (sid : ℚ)))
        "Type" (JVal.jstr "Command"))
        "ExposureTime" (JVal.jnum duration))
        "ISO" (JVal.jnum (iso : ℚ))
    if s2.wsValid then
      ({ s2 with m_cameraState := CameraState.Exposing },
       [Effect.wireSend cmd, Effect.sig "exposureStarted", Effect.sig "cameraStateChanged"],
       true)
    else (s2, [], false)

/-- `abortExposure`: allowed only while `Exposing`; sends the abort and
force-transitions to `Idle` when the socket is valid. -/
def abortExposureF (s : State) : State × List Effect × Bool :=
  if s.m_cameraState ≠ CameraState.Exposing then (s, [], false)
  else
    let (sid, s1) := consumeSeq s
    let cmd :=
      jinsert (jinsert (jinsert (jinsert (jinsert []
        "Command" (JVal.jstr "AbortExposure"))
        "Destination" (JVal.jstr "Camera"))
        "Source" (JVal.jstr "AlpacaServer"))
        "SequenceID" (JVal.jnum (sid : ℚ)))
        "Type" (JVal.jstr "Command")
    if s1.wsValid then
      ({ s1 with m_cameraState := CameraState.Idle },
       [Effect.wireSend cmd, Effect.sig "cameraStateChanged"], true)
    else (s1, [], false)

/-- `setGain`. -/
def setGainF (s : State) (gain : Int) : State × List Effect × Bool :=
  if !isLogicallyConnectedF s then (s, [], false)
  else
    let s1 := { s with m_currentGain := gain }
    let (sid, s2) := consumeSeq s1
    let cmd :=
      jinsert (jinsert (jinsert (jinsert (jinsert (jinsert (jinsert []
        "Command" (JVal.jstr "SetCaptureParameters"))
        "Destination" (JVal.jstr "Camera"))
        "Source" (JVal.jstr "AlpacaServer"))
        "SequenceID" (JVal.jnum (sid : ℚ)))
        "Type" (JVal.jstr "Command"))
        "ISO" (JVal.jnum (gain : ℚ)))
        "Exposure" (JVal.jnum s2.m_lastExposureDuration)
    if s2.wsValid then
      (s2, [Effect.wireSend cmd], true)
    else (s2, [], false)

/-! ## HTTP completions -/

/-- The completion lambda attached in `requestImage` (`decodeOk` stands
for whether `QImage::loadFromData` succeeds on the received bytes). -/
def reqFinishedF (s : State) (i : Nat) (ok : Bool) (bytes : List Nat) (decodeOk : Bool) :
    State × List Effect :=
  let ctx := s.reqPending.getD i default
  let s1 := { s with reqPending := s.reqPending.eraseIdx i }
  if ok then
    if ctx.isTiff then
      ({ s1 with m_snapshotInProgress := false }, [Effect.sig "tiffImageDownloaded"])
    else if decodeOk then
      ({ s1 with m_lastImage := some bytes, m_imageReady := true },
       [Effect.sig "liveImageDownloaded"])
    else (s1, [])
  else
    ({ s1 with m_snapshotInProgress := false }, [])

/-- `onImageDownloadFinished` (completion of an `m_imageDownloader`
request issued by `downloadImage`). -/
def onImageDownloadFinishedF (s : State) (i : Nat) (ok : Bool) (bytes : List Nat) :
    State × List Effect :=
  let remotePath := s.dlPending.getD i ""
  let s1 := { s with dlPending := s.dlPending.eraseIdx i }
  if ok then
    let fmt :=
      if endsWithCI remotePath ".jpg" then "JPEG"
      else if isTiffPath remotePath then "TIFF"
      else "RAW"
    ({ s1 with
       m_lastImageData := bytes
       m_lastImageFormat := fmt
       m_imageReady := true
       m_cameraState := CameraState.Idle },
     [Effect.sig "imageReady", Effect.sig "cameraStateChanged"])
  else
    ({ s1 with m_cameraState := CameraState.Error }, [Effect.sig "cameraStateChanged"])

/-! ## Events and the step function

All protocol handling runs on one cooperative event loop; each `Ev`
is one dispatched entry into the backend.  (The two methods that block
in a nested event loop, `connectToTelescope` and `singleShot`, are not
step events; `connectToTelescope`'s state writes are covered by
`callConnect` + `wsConnected`, and `singleShot` touches none of the
fields studied by the claims except through `sendCommand`.) -/

inductive Ev where
  | wsConnected
  | wsDisconnected
  | textMessage (m : InMsg)
  | statusTick
  | callConnect (host : String) (port : Nat)
  | callDisconnect
  | callSetConnected (b : Bool)
  | callSetCameraConnected (b : Bool)
  | callGoto (ra dec : ℚ)
  | callSync (ra dec : ℚ)
  | callAbortMotion
  | callPark
  | callUnpark
  | callInitialize (dateStr timeStr : String)
  | callMove (direction speed : Int)
  | callSetTracking (b : Bool)
  | callTakeSnapshot (exposure : ℚ) (iso : Int)
  | callStartExposure (duration : ℚ) (iso : Int) (now : String)
  | callAbortExposure
  | callSetGain (g : Int)
  | callGetCameraMode
  | callGetCaptureParameters
  | callGetCameraInfo
  | callSetCaptureParameters (exposure : ℚ) (iso : Int)
  | callSetManualMode
  | callSetAutoMode
  | callSendCommand (command destination : String) (params : JObject)
  | reqFinished (i : Nat) (ok : Bool) (bytes : List Nat) (decodeOk : Bool)
  | dlFinished (i : Nat) (ok : Bool) (bytes : List Nat)
deriving DecidableEq

/-- Which events can fire in a state: timer ticks need the timer active,
HTTP completions need a matching in-flight request. -/
def enabled (s : State) : Ev → Bool
  | Ev.statusTick => s.statusTimerActive
  | Ev.reqFinished i _ _ _ => decide (i < s.reqPending.length)
  | Ev.dlFinished i _ _ => decide (i < s.dlPending.length)
  | _ => true

/-- One dispatched event, with the boolean result of the public
operations (when the event is a call) as third component. -/
def execOp (s : State) : Ev → State × List Effect × Option Bool
  | Ev.wsConnected =>
    let (s1, ef) := onWebSocketConnectedF s
    (s1, ef, none)
  | Ev.wsDisconnected =>
    let (s1, ef) := onWebSocketDisconnectedF s
    (s1, ef, none)
  | Ev.textMessage m =>
    let (s1, ef) := onTextMessageReceivedF s m
    (s1, ef, none)
  | Ev.statusTick =>
    let (s1, ef) := updateStatusF s
    (s1, ef, none)
  | Ev.callConnect host port =>
    let (s1, ef) := connectToTelescopeF s host port
    (s1, ef, none)
  | Ev.callDisconnect =>
    let (s1, ef) := disconnectFromTelescopeF s
    (s1, ef, none)
  | Ev.callSetConnected b =>
    let (s1, ef) := setConnectedF s b
    (s1, ef, none)
  | Ev.callSetCameraConnected b =>
    let (s1, ef) := setCameraConnectedF s b
    (s1, ef, none)
  | Ev.callGoto ra dec =>
    let (s1, ef, r) := gotoPositionF s ra dec
    (s1, ef, some r)
  | Ev.callSync ra dec =>
    let (s1, ef, r) := syncPositionF s ra dec
    (s1, ef, some r)
  | Ev.callAbortMotion =>
    let (s1, ef, r) := abortMotionF s
    (s1, ef, some r)
  | Ev.callPark =>
    let (s1, ef, r) := parkMountF s
    (s1, ef, some r)
  | Ev.callUnpark =>
    let (s1, ef, r) := unparkMountF s
    (s1, ef, some r)
  | Ev.callInitialize dateStr timeStr =>
    let (s1, ef, r) := initializeTelescopeF s dateStr timeStr
    (s1, ef, some r)
  | Ev.callMove d sp =>
    let (s1, ef, r) := moveDirectionF s d sp
    (s1, ef, some r)
  | Ev.callSetTracking b =>
    let (s1, ef, r) := setTrackingF s b
    (s1, ef, some r)
  | Ev.callTakeSnapshot e iso =>
    let (s1, ef, r) := takeSnapshotF s e iso
    (s1, ef, some r)
  | Ev.callStartExposure d iso now =>
    let (s1, ef, r) := startExposureF s d iso now
    (s1, ef, some r)
  | Ev.callAbortExposure =>
    let (s1, ef, r) := abortExposureF s
    (s1, ef, some r)
  | Ev.callSetGain g =>
    let (s1, ef, r) := setGainF s g
    (s1, ef, some r)
  | Ev.callGetCameraMode =>
    let (s1, ef, r) := getCameraModeF s
    (s1, ef, some r)
  | Ev.callGetCaptureParameters =>
    let (s1, ef, r) := getCaptureParametersF s
    (s1, ef, some r)
  | Ev.callGetCameraInfo =>
    let (s1, ef, r) := getCameraInfoF s
    (s1, ef, some r)
  | Ev.callSetCaptureParameters e iso =>
    let (s1, ef, r) := setCaptureParametersF s e iso
    (s1, ef, some r)
  | Ev.callSetManualMode =>
    let (s1, ef, r) := setCameraManualModeF s
    (s1, ef, some r)
  | Ev.callSetAutoMode =>
    let (s1, ef, r) := setCameraAutoModeF s
    (s1, ef, some r)
  | Ev.callSendCommand c d params =>
    let (s1, ef) := sendCommandF s c d params
    (s1, ef, none)
  | Ev.reqFinished i ok bytes decodeOk =>
    let (s1, ef) := reqFinishedF s i ok bytes decodeOk
    (s1, ef, none)
  | Ev.dlFinished i ok bytes =>
    let (s1, ef) := onImageDownloadFinishedF s i ok bytes
    (s1, ef, none)

/-- Step function without the return value. -/
def exec (s : State) (e : Ev) : State × List Effect :=
  let (s1, ef, _) := execOp s e
  (s1, ef)

/-- States reachable from the constructor-produced state by enabled
events. -/
inductive Reach : State → Prop where
  | init : Reach initState
  | step (s : State) (e : Ev) (h : Reach s) (he : enabled s e = true) : Reach (exec s e).1

/-- Run a list of events, accumulating effects. -/
def runTrace (s : State) : List Ev → State × List Effect
  | [] => (s, [])
  | e :: es =>
    let o := exec s e
    let r := runTrace o.1 es
    (r.1, o.2 ++ r.2)

/-! ## The session invariant

Facts true in every reachable state: `m_telescopeIP` is never assigned,
so it stays empty and `m_imageDownloader` never has a request in flight;
the sequence-id counter counts exactly the ids already attached to
commands, which form the contiguous ascending run starting at the seed
2000; and the TIFF flag stored with each in-flight `requestImage`
download matches its path. -/

structure Inv (s : State) : Prop where
  ip : s.m_telescopeIP = ""
  dl : s.dlPending = []
  seq : s.m_nextSequenceId = 2000 + s.cmdIds.length
  ids : s.cmdIds = List.range' 2000 s.cmdIds.length
  req : ∀ c ∈ s.reqPending, c.isTiff = isTiffPath c.filePath

theorem Inv_of_fields {s t : State} (h : Inv s)
    (h1 : t.m_telescopeIP = s.m_telescopeIP)
    (h2 : t.dlPending = s.dlPending)
    (h3 : t.m_nextSequenceId = s.m_nextSequenceId)
    (h4 : t.cmdIds = s.cmdIds)
    (h5 : t.reqPending = s.reqPending) : Inv t := by
  obtain ⟨ip, dl, seqh, ids, req⟩ := h
  refine ⟨h1.trans ip, h2.trans dl, ?_, ?_, ?_⟩
  · rw [h3, h4]; exact seqh
  · rw [h4]; exact ids
  · rw [h5]; exact req

theorem Inv_of_consume {s t : State} (h : Inv s)
    (h1 : t.m_telescopeIP = s.m_telescopeIP)
    (h2 : t.dlPending = s.dlPending)
    (h3 : t.m_nextSequenceId = s.m_nextSequenceId + 1)
    (h4 : t.cmdIds = s.cmdIds ++ [s.m_nextSequenceId])
    (h5 : t.reqPending = s.reqPending) : Inv t := by
  obtain ⟨ip, dl, seqh, ids, req⟩ := h
  refine ⟨h1.trans ip, h2.trans dl, ?_, ?_, ?_⟩
  · rw [h3, h4, seqh]; simp; omega
  · rw [h4]
    have hlen : (s.cmdIds ++ [s.m_nextSequenceId]).length = s.cmdIds.length + 1 := by simp
    rw [hlen, List.range'_concat]
    rw [ids] at seqh ⊢
    simp only [List.length_range'] at seqh ⊢
    rw [seqh]
    simp
  · rw [h5]; exact req

theorem Inv_sendCommand (s : State) (c d : String) (p : JObject) (h : Inv s) :
    Inv (sendCommandF s c d p).1 := by
  unfold sendCommandF createCommandF consumeSeq
  dsimp only
  split
  · exact Inv_of_consume h rfl rfl rfl rfl rfl
  · exact Inv_of_consume h rfl rfl rfl rfl rfl

theorem Inv_updateStatus (s : State) (h : Inv s) : Inv (updateStatusF s).1 := by
  unfold updateStatusF
  dsimp only
  split
  · split
    · exact Inv_of_fields (Inv_sendCommand s _ _ _ h) rfl rfl rfl rfl rfl
    · exact Inv_of_fields (Inv_sendCommand s _ _ _ h) rfl rfl rfl rfl rfl
    · exact Inv_of_fields (Inv_sendCommand s _ _ _ h) rfl rfl rfl rfl rfl
  · exact h

theorem Inv_updateFromProc (s : State) (d : ProcData) (h : Inv s) :
    Inv (updateStatusFromProcessorF s d).1 :=
  Inv_of_fields h rfl rfl rfl rfl rfl

theorem Inv_downloadImage (s : State) (p : String) (h : Inv s) :
    Inv (downloadImageF s p).1 := by
  unfold downloadImageF
  rw [h.ip]
  simpa using h

theorem Inv_handleNewImageReady (s : State) (data : JObject) (h : Inv s) :
    Inv (handleNewImageReadyF s data).1 :=
  Inv_downloadImage _ _ (Inv_of_fields h rfl rfl rfl rfl rfl)

theorem Inv_requestImage (s : State) (p : String) (h : Inv s) :
    Inv (requestImageF s p).1 := by
  unfold requestImageF
  dsimp only
  split
  · exact h
  · obtain ⟨ip, dl, seqh, ids, req⟩ := h
    refine ⟨ip, dl, seqh, ids, ?_⟩
    intro c hc
    simp only [List.mem_append, List.mem_singleton] at hc
    rcases hc with hc | rfl
    · exact req c hc
    · rfl

theorem Inv_responseBlock (s : State) (obj : JObject) (c : String) (h : Inv s) :
    Inv (responseBlockF s obj c).1 := by
  unfold responseBlockF
  split
  · exact Inv_of_fields h rfl rfl rfl rfl rfl
  · split
    · split
      · exact Inv_of_fields h rfl rfl rfl rfl rfl
      · exact h
    · split
      · exact h
      · exact h

theorem Inv_imageServerBlock (s : State) (obj : JObject) (c t src : String) (h : Inv s) :
    Inv (imageServerBlockF s obj c t src).1 := by
  unfold imageServerBlockF
  dsimp only
  split
  · split
    · split
      · exact Inv_of_fields h rfl rfl rfl rfl rfl
      · exact Inv_requestImage _ _ (Inv_of_fields h rfl rfl rfl rfl rfl)
    · exact h
  · exact h

theorem Inv_procStage (s : State) (m : InMsg) (h : Inv s) : Inv (procStageF s m).1 := by
  unfold procStageF
  split
  · exact Inv_updateStatus s h
  · exact h

theorem Inv_procStage2 (s : State) (m : InMsg) (h : Inv s) : Inv (procStage2F s m).1 := by
  unfold procStage2F
  split
  · exact Inv_updateFromProc _ _ h
  · exact h

theorem Inv_notifStage (s : State) (obj : JObject) (c t : String) (h : Inv s) :
    Inv (notifStageF s obj c t).1 := by
  unfold notifStageF
  split
  · exact Inv_handleNewImageReady _ _ h
  · exact h

theorem Inv_respStage (s : State) (obj : JObject) (c t : String) (h : Inv s) :
    Inv (respStageF s obj c t).1 := by
  unfold respStageF
  split
  · exact Inv_responseBlock _ _ _ h
  · exact h

theorem Inv_textMessage (s : State) (m : InMsg) (h : Inv s) :
    Inv (onTextMessageReceivedF s m).1 := by
  unfold onTextMessageReceivedF
  cases m.obj with
  | none => exact h
  | some obj =>
    dsimp only
    split
    · exact Inv_notifStage _ _ _ _ (Inv_procStage2 _ _ (Inv_procStage _ _ h))
    · exact Inv_imageServerBlock _ _ _ _ _
        (Inv_respStage _ _ _ _
          (Inv_notifStage _ _ _ _ (Inv_procStage2 _ _ (Inv_procStage _ _ h))))

theorem Inv_wsConnected (s : State) (h : Inv s) : Inv (onWebSocketConnectedF s).1 := by
  unfold onWebSocketConnectedF
  dsimp only
  exact Inv_sendCommand _ _ _ _ (Inv_of_fields h rfl rfl rfl rfl rfl)

theorem Inv_wsDisconnected (s : State) (h : Inv s) : Inv (onWebSocketDisconnectedF s).1 :=
  Inv_of_fields h rfl rfl rfl rfl rfl

theorem Inv_callDisconnect (s : State) (h : Inv s) : Inv (disconnectFromTelescopeF s).1 := by
  unfold disconnectFromTelescopeF
  dsimp only
  split
  · exact Inv_of_fields h rfl rfl rfl rfl rfl
  · exact Inv_of_fields h rfl rfl rfl rfl rfl

theorem Inv_callConnect (s : State) (host : String) (port : Nat) (h : Inv s) :
    Inv (connectToTelescopeF s host port).1 := by
  unfold connectToTelescopeF
  split
  · exact h
  · exact Inv_of_fields h rfl rfl rfl rfl rfl

theorem Inv_setConnected (s : State) (b : Bool) (h : Inv s) : Inv (setConnectedF s b).1 := by
  unfold setConnectedF
  split
  · exact h
  · exact Inv_of_fields h rfl rfl rfl rfl rfl

theorem Inv_setCameraConnected (s : State) (b : Bool) (h : Inv s) :
    Inv (setCameraConnectedF s b).1 := by
  unfold setCameraConnectedF
  split
  · exact h
  · exact Inv_of_fields h rfl rfl rfl rfl rfl

theorem Inv_goto (s : State) (ra dec : ℚ) (h : Inv s) : Inv (gotoPositionF s ra dec).1 := by
  unfold gotoPositionF
  dsimp only
  split
  · exact h
  · exact Inv_of_fields (Inv_sendCommand s _ _ _ h) rfl rfl rfl rfl rfl

theorem Inv_sync (s : State) (ra dec : ℚ) (h : Inv s) : Inv (syncPositionF s ra dec).1 := by
  unfold syncPositionF
  dsimp only
  split
  · exact h
  · exact Inv_sendCommand s _ _ _ h

theorem Inv_takeSnapshot (s : State) (e : ℚ) (iso : Int) (h : Inv s) :
    Inv (takeSnapshotF s e iso).1 := by
  unfold takeSnapshotF
  dsimp only
  split
  · exact h
  · exact Inv_sendCommand _ _ _ _ (Inv_of_fields h rfl rfl rfl rfl rfl)

theorem Inv_setManual (s : State) (h : Inv s) : Inv (setCameraManualModeF s).1 := by
  unfold setCameraManualModeF
  dsimp only
  split
  · exact h
  · exact Inv_sendCommand s _ _ _ h

theorem Inv_setAuto (s : State) (h : Inv s) : Inv (setCameraAutoModeF s).1 := by
  unfold setCameraAutoModeF
  dsimp only
  split
  · exact h
  · exact Inv_sendCommand s _ _ _ h

theorem Inv_getCameraMode (s : State) (h : Inv s) : Inv (getCameraModeF s).1 := by
  unfold getCameraModeF
  dsimp only
  split
  · exact h
  · exact Inv_sendCommand s _ _ _ h

theorem Inv_getCaptureParameters (s : State) (h : Inv s) :
    Inv (getCaptureParametersF s).1 := by
  unfold getCaptureParametersF
  dsimp only
  split
  · exact h
  · exact Inv_sendCommand s _ _ _ h

theorem Inv_setCaptureParameters (s : State) (e : ℚ) (iso : Int) (h : Inv s) :
    Inv (setCaptureParametersF s e iso).1 := by
  unfold setCaptureParametersF
  dsimp only
  split
  · exact h
  · exact Inv_sendCommand s _ _ _ h

theorem Inv_getCameraInfo (s : State) (h : Inv s) : Inv (getCameraInfoF s).1 := by
  unfold getCameraInfoF
  dsimp only
  split
  · exact h
  · exact Inv_sendCommand s _ _ _ h

theorem Inv_abortMotion (s : State) (h : Inv s) : Inv (abortMotionF s).1 := by
  unfold abortMotionF
  dsimp only
  split
  · exact h
  · exact Inv_of_fields (Inv_sendCommand s _ _ _ h) rfl rfl rfl rfl rfl

theorem Inv_park (s : State) (h : Inv s) : Inv (parkMountF s).1 := by
  unfold parkMountF
  dsimp only
  split
  · exact h
  · exact Inv_of_fields (Inv_sendCommand s _ _ _ h) rfl rfl rfl rfl rfl

theorem Inv_unpark (s : State) (h : Inv s) : Inv (unparkMountF s).1 := by
  unfold unparkMountF
  dsimp only
  split
  · exact h
  · exact Inv_of_fields (Inv_sendCommand s _ _ _ h) rfl rfl rfl rfl rfl

theorem Inv_initialize (s : State) (d t : String) (h : Inv s) :
    Inv (initializeTelescopeF s d t).1 := by
  unfold initializeTelescopeF
  dsimp only
  split
  · exact h
  · exact Inv_of_fields (Inv_sendCommand s _ _ _ h) rfl rfl rfl rfl rfl

theorem Inv_move (s : State) (d sp : Int) (h : Inv s) : Inv (moveDirectionF s d sp).1 := by
  unfold moveDirectionF
  dsimp only
  split
  · exact h
  · split
    · exact h
    · exact Inv_sendCommand s _ _ _ h

theorem Inv_setTracking (s : State) (b : Bool) (h : Inv s) : Inv (setTrackingF s b).1 := by
  unfold setTrackingF
  dsimp only
  split
  · exact h
  · exact Inv_of_fields (Inv_sendCommand s _ _ _ h) rfl rfl rfl rfl rfl

theorem Inv_startExposure (s : State) (d : ℚ) (iso : Int) (now : String) (h : Inv s) :
    Inv (startExposureF s d iso now).1 := by
  unfold startExposureF consumeSeq
  dsimp only
  split
  · exact h
  · split
    · exact h
    · split
      · exact Inv_of_consume (Inv_of_fields h rfl rfl rfl rfl rfl) rfl rfl rfl rfl rfl
      · exact Inv_of_consume (Inv_of_fields h rfl rfl rfl rfl rfl) rfl rfl rfl rfl rfl

theorem Inv_abortExposure (s : State) (h : Inv s) : Inv (abortExposureF s).1 := by
  unfold abortExposureF consumeSeq
  dsimp only
  split
  · exact h
  · split
    · exact Inv_of_consume h rfl rfl rfl rfl rfl
    · exact Inv_of_consume h rfl rfl rfl rfl rfl

theorem Inv_setGain (s : State) (g : Int) (h : Inv s) : Inv (setGainF s g).1 := by
  unfold setGainF consumeSeq
  dsimp only
  split
  · exact h
  · split
    · exact Inv_of_consume (Inv_of_fields h rfl rfl rfl rfl rfl) rfl rfl rfl rfl rfl
    · exact Inv_of_consume (Inv_of_fields h rfl rfl rfl rfl rfl) rfl rfl rfl rfl rfl

theorem Inv_reqFinished (s : State) (i : Nat) (ok : Bool) (bytes : List Nat)
    (decodeOk : Bool) (h : Inv s) : Inv (reqFinishedF s i ok bytes decodeOk).1 := by
  obtain ⟨ip, dl, seqh, ids, req⟩ := h
  have req2 : ∀ c ∈ s.reqPending.eraseIdx i, c.isTiff = isTiffPath c.filePath :=
    fun c hc => req c (s.reqPending.eraseIdx_subset i hc)
  unfold reqFinishedF
  dsimp only
  split
  · split
    · exact ⟨ip, dl, seqh, ids, req2⟩
    · split
      · exact ⟨ip, dl, seqh, ids, req2⟩
      · exact ⟨ip, dl, seqh, ids, req2⟩
  · exact ⟨ip, dl, seqh, ids, req2⟩

theorem Inv_dlFinished (s : State) (i : Nat) (ok : Bool) (bytes : List Nat) (h : Inv s) :
    Inv (onImageDownloadFinishedF s i ok bytes).1 := by
  obtain ⟨ip, dl, seqh, ids, req⟩ := h
  have dl2 : s.dlPending.eraseIdx i = [] := by rw [dl]; simp
  unfold onImageDownloadFinishedF
  dsimp only
  split
  · exact ⟨ip, dl2, seqh, ids, req⟩
  · exact ⟨ip, dl2, seqh, ids, req⟩

/-- Every reachable state satisfies the session invariant. -/
theorem reach_inv (s : State) (h : Reach s) : Inv s := by
  induction h with
  | init => exact ⟨rfl, rfl, rfl, rfl, by intro c hc; simp [initState] at hc⟩
  | step s e hr he ih =>
    cases e with
    | wsConnected => exact Inv_wsConnected s ih
    | wsDisconnected => exact Inv_wsDisconnected s ih
    | textMessage m => exact Inv_textMessage s m ih
    | statusTick => exact Inv_updateStatus s ih
    | callConnect host port => exact Inv_callConnect s host port ih
    | callDisconnect => exact Inv_callDisconnect s ih
    | callSetConnected b => exact Inv_setConnected s b ih
    | callSetCameraConnected b => exact Inv_setCameraConnected s b ih
    | callGoto ra dec => exact Inv_goto s ra dec ih
    | callSync ra dec => exact Inv_sync s ra dec ih
    | callAbortMotion => exact Inv_abortMotion s ih
    | callPark => exact Inv_park s ih
    | callUnpark => exact Inv_unpark s ih
    | callInitialize d t => exact Inv_initialize s d t ih
    | callMove d sp => exact Inv_move s d sp ih
    | callSetTracking b => exact Inv_setTracking s b ih
    | callTakeSnapshot e iso => exact Inv_takeSnapshot s e iso ih
    | callStartExposure d iso now => exact Inv_startExposure s d iso now ih
    | callAbortExposure => exact Inv_abortExposure s ih
    | callSetGain g => exact Inv_setGain s g ih
    | callGetCameraMode => exact Inv_getCameraMode s ih
    | callGetCaptureParameters => exact Inv_getCaptureParameters s ih
    | callGetCameraInfo => exact Inv_getCameraInfo s ih
    | callSetCaptureParameters e iso => exact Inv_setCaptureParameters s e iso ih
    | callSetManualMode => exact Inv_setManual s ih
    | callSetAutoMode => exact Inv_setAuto s ih
    | callSendCommand c d params => exact Inv_sendCommand s c d params ih
    | reqFinished i ok bytes decodeOk => exact Inv_reqFinished s i ok bytes decodeOk ih
    | dlFinished i ok bytes => exact Inv_dlFinished s i ok bytes ih


/-! ## Frame lemmas for the message-processing stages -/

theorem sendCommand_frame (s : State) (c d : String) (p : JObject) :
    (sendCommandF s c d p).1.m_snapshotInProgress = s.m_snapshotInProgress ∧
    (sendCommandF s c d p).1.m_telescopeIP = s.m_telescopeIP ∧
    (sendCommandF s c d p).1.m_cameraState = s.m_cameraState ∧
    noHttpFetch (sendCommandF s c d p).2 = true := by
  unfold sendCommandF createCommandF consumeSeq
  dsimp only
  split
  · exact ⟨rfl, rfl, rfl, rfl⟩
  · exact ⟨rfl, rfl, rfl, rfl⟩

theorem updateStatus_frame (s : State) :
    (updateStatusF s).1.m_snapshotInProgress = s.m_snapshotInProgress ∧
    (updateStatusF s).1.m_telescopeIP = s.m_telescopeIP ∧
    (updateStatusF s).1.m_cameraState = s.m_cameraState ∧
    noHttpFetch (updateStatusF s).2 = true := by
  unfold updateStatusF
  dsimp only
  split
  · split
    · exact ⟨(sendCommand_frame s _ _ _).1, (sendCommand_frame s _ _ _).2.1,
        (sendCommand_frame s _ _ _).2.2.1, (sendCommand_frame s _ _ _).2.2.2⟩
    · exact ⟨(sendCommand_frame s _ _ _).1, (sendCommand_frame s _ _ _).2.1,
        (sendCommand_frame s _ _ _).2.2.1, (sendCommand_frame s _ _ _).2.2.2⟩
    · exact ⟨(sendCommand_frame s _ _ _).1, (sendCommand_frame s _ _ _).2.1,
        (sendCommand_frame s _ _ _).2.2.1, (sendCommand_frame s _ _ _).2.2.2⟩
  · exact ⟨rfl, rfl, rfl, rfl⟩

theorem updateFromProc_frame (s : State) (d : ProcData) :
    (updateStatusFromProcessorF s d).1.m_snapshotInProgress = s.m_snapshotInProgress ∧
    (updateStatusFromProcessorF s d).1.m_telescopeIP = s.m_telescopeIP ∧
    (updateStatusFromProcessorF s d).1.m_cameraState = s.m_cameraState ∧
    noHttpFetch (updateStatusFromProcessorF s d).2 = true :=
  ⟨rfl, rfl, rfl, rfl⟩

theorem handleNIR_frame (s : State) (data : JObject) (hip : s.m_telescopeIP = "") :
    (handleNewImageReadyF s data).1.m_snapshotInProgress = s.m_snapshotInProgress ∧
    (handleNewImageReadyF s data).1.m_telescopeIP = "" ∧
    noHttpFetch (handleNewImageReadyF s data).2 = true := by
  unfold handleNewImageReadyF downloadImageF
  dsimp only
  rw [hip]
  simp [noHttpFetch]

theorem imageServerBlock_skip (s : State) (obj : JObject) (c t src : String)
    (hsnap : s.m_snapshotInProgress = true)
    (hlive : isTiffPath (jToString obj "FileLocation") = false) :
    (imageServerBlockF s obj c t src).1.m_snapshotInProgress = true ∧
    noHttpFetch (imageServerBlockF s obj c t src).2 = true := by
  unfold imageServerBlockF
  dsimp only
  split
  · split
    · rw [hlive]
      simp [hsnap, noHttpFetch]
    · exact ⟨hsnap, rfl⟩
  · exact ⟨hsnap, rfl⟩

/-! ## Claim C2 -/

/-- C2: in every reachable state `m_telescopeIP` is still the empty
string (no operation ever assigns it), `downloadImage` therefore issues
no HTTP request and changes no state, `m_imageDownloader` never has a
request in flight, and consequently the `onImageDownloadFinished`
completion (the `Reading → Idle` / `Reading → Error` transitions of the
exposure pipeline) can never fire. -/
theorem C2_downloadImage_dead (s : State) (hr : Reach s) :
    s.m_telescopeIP = "" ∧
    (∀ p, downloadImageF s p = (s, [])) ∧
    s.dlPending = [] ∧
    (∀ i ok bytes, enabled s (Ev.dlFinished i ok bytes) = false) := by
  have h := reach_inv s hr
  refine ⟨h.ip, ?_, h.dl, ?_⟩
  · intro p
    unfold downloadImageF
    rw [h.ip]
    simp
  · intro i ok bytes
    simp [enabled, h.dl]

/-- Witness for C2 at the initial state. -/
theorem C2_downloadImage_dead_witness :
    initState.m_telescopeIP = "" ∧
    downloadImageF initState "Images/live_0001.jpg" = (initState, []) ∧
    initState.dlPending = [] ∧
    enabled initState (Ev.dlFinished 0 true []) = false :=
  ⟨(C2_downloadImage_dead initState Reach.init).1,
   (C2_downloadImage_dead initState Reach.init).2.1 "Images/live_0001.jpg",
   (C2_downloadImage_dead initState Reach.init).2.2.1,
   (C2_downloadImage_dead initState Reach.init).2.2.2 0 true []⟩

/-! ## Claim C5 -/

/-- The operations the claim lists as gated on connection state. -/
def gatedCall : Ev → Bool
  | Ev.callGoto _ _ => true
  | Ev.callSync _ _ => true
  | Ev.callAbortMotion => true
  | Ev.callPark => true
  | Ev.callUnpark => true
  | Ev.callInitialize _ _ => true
  | Ev.callMove _ _ => true
  | Ev.callSetTracking _ => true
  | Ev.callTakeSnapshot _ _ => true
  | Ev.callStartExposure _ _ _ => true
  | Ev.callSetGain _ => true
  | Ev.callGetCameraMode => true
  | Ev.callGetCaptureParameters => true
  | Ev.callGetCameraInfo => true
  | _ => false

/-- The required connection for each gated operation is absent:
`startExposure` and `setGain` require the logical connection, the rest
require the physical connection. -/
def requiredConnAbsent (s : State) : Ev → Bool
  | Ev.callStartExposure _ _ _ => !isLogicallyConnectedF s
  | Ev.callSetGain _ => !isLogicallyConnectedF s
  | _ => !isConnectedF s

/-- C5: calling any connection-gated operation while its required
connection is absent returns `false`, writes nothing on the control
channel (no effects at all), and leaves the whole session state
unchanged. -/
theorem C5_gated_ops_fail_without_side_effects (s : State) (e : Ev)
    (hg : gatedCall e = true) (ha : requiredConnAbsent s e = true) :
    execOp s e = (s, [], some false) := by
  cases e <;>
    simp_all [gatedCall, requiredConnAbsent, execOp, gotoPositionF, syncPositionF,
      abortMotionF, parkMountF, unparkMountF, initializeTelescopeF, moveDirectionF,
      setTrackingF, takeSnapshotF, startExposureF, setGainF, getCameraModeF,
      getCaptureParametersF, getCameraInfoF]

/-- Witness for C5: `gotoPosition` in the fresh disconnected state. -/
theorem C5_gated_ops_fail_without_side_effects_witness :
    gatedCall (Ev.callGoto 5 20) = true ∧
    requiredConnAbsent initState (Ev.callGoto 5 20) = true ∧
    execOp initState (Ev.callGoto 5 20) = (initState, [], some false) :=
  ⟨by decide, by decide,
   C5_gated_ops_fail_without_side_effects initState (Ev.callGoto 5 20)
     (by decide) (by decide)⟩

/-! ## Claim C10 -/

/-- A session trace: connect, one successful send, caller disconnect,
one dropped send, reconnect. -/
def c10trace : List Ev :=
  [Ev.callConnect "10.0.0.1" 80, Ev.wsConnected,
   Ev.callSendCommand "GetStatus" "Mount" [],
   Ev.callDisconnect,
   Ev.callSendCommand "GetStatus" "Mount" [],
   Ev.callConnect "10.0.0.1" 80, Ev.wsConnected]

/-- C10: `sendCommand` while disconnected still consumes a sequence id —
the counter advances by one and the id is logged against the (dropped)
command — but nothing is transmitted and the pending table and every
other field are unchanged.  Consequently consecutive transmitted
commands can carry non-consecutive ids: on `c10trace` the transmitted
ids are 2000, 2001, 2003 (2002 was consumed by the dropped send). -/
theorem C10_dropped_send_consumes_id :
    (∀ (s : State) (c d : String) (p : JObject), isConnectedF s = false →
      sendCommandF s c d p =
        ({ s with
           m_nextSequenceId := s.m_nextSequenceId + 1
           cmdIds := s.cmdIds ++ [s.m_nextSequenceId] }, [])) ∧
    wireSeqIds (runTrace initState c10trace).2 = [2000, 2001, 2003] := by
  constructor
  · intro s c d p h
    unfold sendCommandF createCommandF consumeSeq
    dsimp only
    have h2 : isConnectedF
        { s with
          m_nextSequenceId := s.m_nextSequenceId + 1
          cmdIds := s.cmdIds ++ [s.m_nextSequenceId] } = false := h
    rw [h2]
    simp
  · decide

/-- Witness for C10 at the initial (disconnected) state. -/
theorem C10_dropped_send_consumes_id_witness :
    isConnectedF initState = false ∧
    sendCommandF initState "GetStatus" "Mount" [] =
      ({ initState with
         m_nextSequenceId := initState.m_nextSequenceId + 1
         cmdIds := initState.cmdIds ++ [initState.m_nextSequenceId] }, []) :=
  ⟨rfl, C10_dropped_send_consumes_id.1 initState "GetStatus" "Mount" [] rfl⟩

/-! ## Claim C6 -/

theorem range'_pairwise_lt (a n : Nat) :
    (List.range' a n).Pairwise (fun x y => x < y) := by
  rw [List.range'_eq_map_range]
  exact List.Pairwise.map _ (fun x y h => by omega) (List.pairwise_lt_range n)

/-- C6: across the lifetime of a session, the sequence ids attached to
built outbound commands form exactly the contiguous ascending run
starting at the seed 2000: they are strictly increasing, pairwise
distinct, and the first one (when any command was built) is 2000. -/
theorem C6_sequence_ids_increasing (s : State) (hr : Reach s) :
    s.cmdIds = List.range' 2000 s.cmdIds.length ∧
    s.cmdIds.Pairwise (fun a b => a < b) ∧
    s.cmdIds.Nodup ∧
    (s.cmdIds ≠ [] → s.cmdIds.headI = 2000) := by
  have h := reach_inv s hr
  refine ⟨h.ids, ?_, ?_, ?_⟩
  · rw [h.ids]
    exact range'_pairwise_lt 2000 _
  · have hp : s.cmdIds.Pairwise (fun a b => a < b) := by
      rw [h.ids]; exact range'_pairwise_lt 2000 _
    exact hp.imp (fun hlt => Nat.ne_of_lt hlt)
  · intro hne
    rw [h.ids] at hne ⊢
    generalize s.cmdIds.length = n at hne ⊢
    cases n with
    | zero => simp at hne
    | succ m => rw [List.range'_succ]; rfl

/-- The state after connecting: exactly one command (the initial status
query) has been built, with id 2000. -/
def c6state : State :=
  (exec (exec initState (Ev.callConnect "10.0.0.1" 80)).1 Ev.wsConnected).1

/-- Witness for C6 after the first command of a session. -/
theorem C6_sequence_ids_increasing_witness :
    c6state.cmdIds = List.range' 2000 c6state.cmdIds.length ∧
    c6state.cmdIds.Pairwise (fun a b => a < b) ∧
    c6state.cmdIds.Nodup ∧
    (c6state.cmdIds ≠ [] → c6state.cmdIds.headI = 2000) :=
  C6_sequence_ids_increasing c6state
    (Reach.step _ Ev.wsConnected
      (Reach.step _ (Ev.callConnect "10.0.0.1" 80) Reach.init (by decide))
      (by decide))

/-! ## Claim C9 -/

/-- The parameter object `gotoPosition` builds for `GotoRaDec`
(`params["Ra"] = r; params["Dec"] = d;`). -/
def gotoParams (r d : ℚ) : JObject :=
  jinsert (jinsert [] "Ra" (JVal.jnum r)) "Dec" (JVal.jnum d)

/-- C9: for all values `r` and `d` and any sequence id, the command
object built for name `GotoRaDec`, destination `Mount`, parameters
`Ra = r`, `Dec = d`, serialized to compact JSON text and parsed back,
round-trips exactly, and the parsed object's `Ra` field is `r`, its
`Dec` field is `d`, and its `Type` field is `"Command"`. -/
theorem C9_gotoRaDec_roundtrip (r d : ℚ) (sid : Nat) :
    parseObj (serializeObj (createCommandJ "GotoRaDec" "Mount" (gotoParams r d) sid)) =
      some (createCommandJ "GotoRaDec" "Mount" (gotoParams r d) sid, []) ∧
    jToDouble (createCommandJ "GotoRaDec" "Mount" (gotoParams r d) sid) "Ra" = r ∧
    jToDouble (createCommandJ "GotoRaDec" "Mount" (gotoParams r d) sid) "Dec" = d ∧
    jToString (createCommandJ "GotoRaDec" "Mount" (gotoParams r d) sid) "Type" = "Command" :=
  ⟨rfl, rfl, rfl, rfl⟩

/-! ## Claim C1 -/

theorem noHttpFetch_append (a b : List Effect) :
    noHttpFetch (a ++ b) = (noHttpFetch a && noHttpFetch b) := by
  simp [noHttpFetch, List.all_append]

theorem responseBlock_frame (s : State) (obj : JObject) (c : String) :
    (responseBlockF s obj c).1.m_snapshotInProgress = s.m_snapshotInProgress ∧
    noHttpFetch (responseBlockF s obj c).2 = true := by
  unfold responseBlockF
  split
  · exact ⟨rfl, rfl⟩
  · split
    · split
      · exact ⟨rfl, rfl⟩
      · exact ⟨rfl, rfl⟩
    · split
      · exact ⟨rfl, rfl⟩
      · exact ⟨rfl, rfl⟩

theorem procStage_frame (s : State) (m : InMsg) :
    (procStageF s m).1.m_snapshotInProgress = s.m_snapshotInProgress ∧
    (procStageF s m).1.m_telescopeIP = s.m_telescopeIP ∧
    noHttpFetch (procStageF s m).2 = true := by
  unfold procStageF
  split
  · exact ⟨(updateStatus_frame s).1, (updateStatus_frame s).2.1,
      (updateStatus_frame s).2.2.2⟩
  · exact ⟨rfl, rfl, rfl⟩

theorem procStage2_frame (s : State) (m : InMsg) :
    (procStage2F s m).1.m_snapshotInProgress = s.m_snapshotInProgress ∧
    (procStage2F s m).1.m_telescopeIP = s.m_telescopeIP ∧
    noHttpFetch (procStage2F s m).2 = true := by
  unfold procStage2F
  split
  · exact ⟨(updateFromProc_frame s _).1, (updateFromProc_frame s _).2.1,
      (updateFromProc_frame s _).2.2.2⟩
  · exact ⟨rfl, rfl, rfl⟩

theorem notifStage_frame (s : State) (obj : JObject) (c t : String)
    (hip : s.m_telescopeIP = "") :
    (notifStageF s obj c t).1.m_snapshotInProgress = s.m_snapshotInProgress ∧
    (notifStageF s obj c t).1.m_telescopeIP = "" ∧
    noHttpFetch (notifStageF s obj c t).2 = true := by
  unfold notifStageF
  split
  · exact ⟨(handleNIR_frame s obj hip).1, (handleNIR_frame s obj hip).2.1,
      (handleNIR_frame s obj hip).2.2⟩
  · exact ⟨rfl, hip, rfl⟩

theorem respStage_frame (s : State) (obj : JObject) (c t : String) :
    (respStageF s obj c t).1.m_snapshotInProgress = s.m_snapshotInProgress ∧
    noHttpFetch (respStageF s obj c t).2 = true := by
  unfold respStageF
  split
  · exact ⟨(responseBlock_frame s obj c).1, (responseBlock_frame s obj c).2⟩
  · exact ⟨rfl, rfl⟩

/-- C1: while the snapshot-in-progress flag is set, processing a
`NewImageReady` notification whose file path is not a TIFF (a live
frame) issues no HTTP fetch on either download channel and leaves the
flag set, exactly as it was. -/
theorem C1_live_frame_skipped_during_snapshot (s : State) (m : InMsg) (obj : JObject)
    (hr : Reach s) (hobj : m.obj = some obj)
    (htype : jToString obj "Type" = "Notification")
    (hcmd : jToString obj "Command" = "NewImageReady")
    (hlive : isTiffPath (jToString obj "FileLocation") = false)
    (hsnap : s.m_snapshotInProgress = true) :
    noHttpFetch (exec s (Ev.textMessage m)).2 = true ∧
    (exec s (Ev.textMessage m)).1.m_snapshotInProgress = true := by
  have hInv := reach_inv s hr
  show noHttpFetch (onTextMessageReceivedF s m).2 = true ∧
    (onTextMessageReceivedF s m).1.m_snapshotInProgress = true
  unfold onTextMessageReceivedF
  rw [hobj]
  dsimp only
  rw [htype, hcmd]
  rw [if_neg (show ¬("Notification" = "Response" ∧ jToInt obj "ErrorCode" ≠ 0) from
        fun hc => absurd hc.1 (by decide))]
  have f1 := procStage_frame s m
  have hip1 : (procStageF s m).1.m_telescopeIP = "" := f1.2.1.trans hInv.ip
  have hs1 : (procStageF s m).1.m_snapshotInProgress = true := f1.1.trans hsnap
  have f2 := procStage2_frame (procStageF s m).1 m
  have hip2 : (procStage2F (procStageF s m).1 m).1.m_telescopeIP = "" := f2.2.1.trans hip1
  have hs2 : (procStage2F (procStageF s m).1 m).1.m_snapshotInProgress = true :=
    f2.1.trans hs1
  have f3 := notifStage_frame (procStage2F (procStageF s m).1 m).1 obj
    "NewImageReady" "Notification" hip2
  have hs3 : (notifStageF (procStage2F (procStageF s m).1 m).1 obj
      "NewImageReady" "Notification").1.m_snapshotInProgress = true := f3.1.trans hs2
  have f4 := respStage_frame (notifStageF (procStage2F (procStageF s m).1 m).1 obj
    "NewImageReady" "Notification").1 obj "NewImageReady" "Notification"
  have hs4 : (respStageF (notifStageF (procStage2F (procStageF s m).1 m).1 obj
      "NewImageReady" "Notification").1 obj "NewImageReady"
      "Notification").1.m_snapshotInProgress = true := f4.1.trans hs3
  have f5 := imageServerBlock_skip (respStageF (notifStageF
      (procStage2F (procStageF s m).1 m).1 obj "NewImageReady" "Notification").1 obj
      "NewImageReady" "Notification").1 obj "NewImageReady" "Notification"
    (jToString obj "Source") hs4 hlive
  constructor
  · dsimp only
    simp only [noHttpFetch_append, f1.2.2, f2.2.2, f3.2.2, f4.2, f5.2]
    rfl
  · exact f5.1

/-- A reachable state that is connected with the snapshot flag set. -/
def c1state : State :=
  (exec (exec (exec initState (Ev.callConnect "10.0.0.1" 80)).1 Ev.wsConnected).1
    (Ev.callTakeSnapshot 1 200)).1

/-- An inbound live-frame notification. -/
def c1msg : InMsg :=
  { obj := some [("Command", JVal.jstr "NewImageReady"),
                 ("Dec", JVal.jnum 1),
                 ("ExposureTime", JVal.jnum 1),
                 ("FileLocation", JVal.jstr "Images/live_0001.jpg"),
                 ("Ra", JVal.jnum 1),
                 ("Source", JVal.jstr "ImageServer"),
                 ("Type", JVal.jstr "Notification")]
    procProcessed := false
    procEmitsMountUpdate := false
    procData := ⟨false, true, false, 0, 0, 0⟩ }

/-- Witness for C1: a live JPEG notification arriving while a snapshot
is in progress is skipped. -/
theorem C1_live_frame_skipped_during_snapshot_witness :
    noHttpFetch (exec c1state (Ev.textMessage c1msg)).2 = true ∧
    (exec c1state (Ev.textMessage c1msg)).1.m_snapshotInProgress = true :=
  C1_live_frame_skipped_during_snapshot c1state c1msg
    [("Command", JVal.jstr "NewImageReady"),
     ("Dec", JVal.jnum 1),
     ("ExposureTime", JVal.jnum 1),
     ("FileLocation", JVal.jstr "Images/live_0001.jpg"),
     ("Ra", JVal.jnum 1),
     ("Source", JVal.jstr "ImageServer"),
     ("Type", JVal.jstr "Notification")]
    (Reach.step _ (Ev.callTakeSnapshot 1 200)
      (Reach.step _ Ev.wsConnected
        (Reach.step _ (Ev.callConnect "10.0.0.1" 80) Reach.init (by decide))
        (by decide))
      (by decide))
    rfl (by decide) (by decide) (by decide) (by decide)

/-! ## Claim C8 -/

/-- C8: a successful HTTP image download whose target path is a TIFF
leaves the snapshot-in-progress flag false afterwards, whatever its
value before (idempotent clear); and the only other download channel
(`m_imageDownloader` / `onImageDownloadFinished`) can never complete at
all in a reachable state, so this covers every successful TIFF
download. -/
theorem C8_tiff_download_clears_snapshot_flag (s : State) (i : Nat) (bytes : List Nat)
    (dOk : Bool) (hr : Reach s) (hi : i < s.reqPending.length)
    (htiff : isTiffPath (s.reqPending.getD i default).filePath = true) :
    (exec s (Ev.reqFinished i true bytes dOk)).1.m_snapshotInProgress = false ∧
    (∀ j ok2 b2, enabled s (Ev.dlFinished j ok2 b2) = false) := by
  have h := reach_inv s hr
  constructor
  · have hmem : s.reqPending.getD i default ∈ s.reqPending := by
      rw [List.getD_eq_getElem s.reqPending default hi]
      exact List.getElem_mem hi
    have hctx : (s.reqPending.getD i default).isTiff = true :=
      (h.req _ hmem).trans htiff
    show (reqFinishedF s i true bytes dOk).1.m_snapshotInProgress = false
    unfold reqFinishedF
    dsimp only
    rw [hctx]
    simp
  · intro j ok2 b2
    simp [enabled, h.dl]

/-- An inbound TIFF snapshot notification. -/
def c8msg : InMsg :=
  { obj := some [("Command", JVal.jstr "NewImageReady"),
                 ("Dec", JVal.jnum 1),
                 ("ExposureTime", JVal.jnum 1),
                 ("FileLocation", JVal.jstr "Images/capture_0001.tiff"),
                 ("Ra", JVal.jnum 1),
                 ("Source", JVal.jstr "ImageServer"),
                 ("Type", JVal.jstr "Notification")]
    procProcessed := false
    procEmitsMountUpdate := false
    procData := ⟨false, true, false, 0, 0, 0⟩ }

/-- A reachable state with one in-flight TIFF download. -/
def c8state : State :=
  (exec (exec (exec initState (Ev.callConnect "10.0.0.1" 80)).1 Ev.wsConnected).1
    (Ev.textMessage c8msg)).1

/-- Witness for C8: completing the in-flight TIFF download clears the
flag. -/
theorem C8_tiff_download_clears_snapshot_flag_witness :
    (exec c8state (Ev.reqFinished 0 true [1, 2, 3] false)).1.m_snapshotInProgress = false ∧
    enabled c8state (Ev.dlFinished 0 true []) = false :=
  ⟨(C8_tiff_download_clears_snapshot_flag c8state 0 [1, 2, 3] false
      (Reach.step _ (Ev.textMessage c8msg)
        (Reach.step _ Ev.wsConnected
          (Reach.step _ (Ev.callConnect "10.0.0.1" 80) Reach.init (by decide))
          (by decide))
        (by decide))
      (by decide) (by decide)).1,
   (C8_tiff_download_clears_snapshot_flag c8state 0 [1, 2, 3] false
      (Reach.step _ (Ev.textMessage c8msg)
        (Reach.step _ Ev.wsConnected
          (Reach.step _ (Ev.callConnect "10.0.0.1" 80) Reach.init (by decide))
          (by decide))
        (by decide))
      (by decide) (by decide)).2 0 true []⟩

/-! ## Claim C3 -/

theorem requestImage_cam (s : State) (p : String) :
    (requestImageF s p).1.m_cameraState = s.m_cameraState := by
  unfold requestImageF
  dsimp only
  split <;> rfl

theorem responseBlock_cam (s : State) (obj : JObject) (c : String) :
    (responseBlockF s obj c).1.m_cameraState = s.m_cameraState := by
  unfold responseBlockF
  split
  · rfl
  · split
    · split <;> rfl
    · split <;> rfl

theorem imageServerBlock_cam (s : State) (obj : JObject) (c t src : String) :
    (imageServerBlockF s obj c t src).1.m_cameraState = s.m_cameraState := by
  unfold imageServerBlockF
  dsimp only
  split
  · split
    · split
      · rfl
      · exact requestImage_cam _ _
    · rfl
  · rfl

theorem handleNIR_cam (s : State) (data : JObject) :
    (handleNewImageReadyF s data).1.m_cameraState = CameraState.Reading := by
  unfold handleNewImageReadyF downloadImageF
  dsimp only
  split <;> rfl

theorem procStage_cam (s : State) (m : InMsg) :
    (procStageF s m).1.m_cameraState = s.m_cameraState := by
  unfold procStageF
  split
  · exact (updateStatus_frame s).2.2.1
  · rfl

theorem procStage2_cam (s : State) (m : InMsg) :
    (procStage2F s m).1.m_cameraState = s.m_cameraState := by
  unfold procStage2F
  split
  · exact (updateFromProc_frame s _).2.2.1
  · rfl

theorem notifStage_cam (s : State) (obj : JObject) (c t : String) :
    (notifStageF s obj c t).1.m_cameraState = CameraState.Reading ∨
    (notifStageF s obj c t).1.m_cameraState = s.m_cameraState := by
  unfold notifStageF
  split
  · exact Or.inl (handleNIR_cam _ _)
  · exact Or.inr rfl

theorem respStage_cam (s : State) (obj : JObject) (c t : String) :
    (respStageF s obj c t).1.m_cameraState = s.m_cameraState := by
  unfold respStageF
  split
  · exact responseBlock_cam _ _ _
  · rfl

theorem textMessage_cam (s : State) (m : InMsg) :
    (onTextMessageReceivedF s m).1.m_cameraState = CameraState.Reading ∨
    (onTextMessageReceivedF s m).1.m_cameraState = s.m_cameraState := by
  unfold onTextMessageReceivedF
  cases m.obj with
  | none => exact Or.inr rfl
  | some obj =>
    dsimp only
    have h3 : (notifStageF (procStage2F (procStageF s m).1 m).1 obj
          (jToString obj "Command") (jToString obj "Type")).1.m_cameraState =
          CameraState.Reading ∨
        (notifStageF (procStage2F (procStageF s m).1 m).1 obj
          (jToString obj "Command") (jToString obj "Type")).1.m_cameraState =
          s.m_cameraState := by
      rcases notifStage_cam (procStage2F (procStageF s m).1 m).1 obj
          (jToString obj "Command") (jToString obj "Type") with h | h
      · exact Or.inl h
      · exact Or.inr (h.trans ((procStage2_cam _ m).trans (procStage_cam s m)))
    split
    · exact h3
    · rcases h3 with h | h
      · exact Or.inl (((imageServerBlock_cam _ obj _ _ _).trans
          (respStage_cam _ obj _ _)).trans h)
      · exact Or.inr (((imageServerBlock_cam _ obj _ _ _).trans
          (respStage_cam _ obj _ _)).trans h)

theorem startExposure_cam (s : State) (d : ℚ) (i : Int) (n : String) :
    (startExposureF s d i n).1.m_cameraState = s.m_cameraState ∨
    (s.m_cameraState = CameraState.Idle ∧
     (startExposureF s d i n).1.m_cameraState = CameraState.Exposing) := by
  unfold startExposureF consumeSeq
  dsimp only
  split_ifs with h1 h2 h3
  · exact Or.inl rfl
  · exact Or.inl rfl
  · exact Or.inr ⟨not_not.mp h2, rfl⟩
  · exact Or.inl rfl

theorem abortExposure_cam (s : State) :
    (abortExposureF s).1.m_cameraState = s.m_cameraState ∨
    (s.m_cameraState = CameraState.Exposing ∧
     (abortExposureF s).1.m_cameraState = CameraState.Idle) := by
  unfold abortExposureF consumeSeq
  dsimp only
  split_ifs with h1 h2
  · exact Or.inl rfl
  · exact Or.inr ⟨not_not.mp h1, rfl⟩
  · exact Or.inl rfl

theorem setGain_cam (s : State) (g : Int) :
    (setGainF s g).1.m_cameraState = s.m_cameraState := by
  unfold setGainF consumeSeq
  dsimp only
  split_ifs <;> rfl

theorem reqFinished_cam (s : State) (i : Nat) (ok : Bool) (b : List Nat) (dOk : Bool) :
    (reqFinishedF s i ok b dOk).1.m_cameraState = s.m_cameraState := by
  unfold reqFinishedF
  dsimp only
  split_ifs <;> rfl

/-- Is the event a `startExposure` call? -/
def isStartExposureEv : Ev → Bool
  | Ev.callStartExposure _ _ _ => true
  | _ => false

/-- Is the event a successful completion on the exposure-pipeline
download channel? -/
def isDlSuccessEv : Ev → Bool
  | Ev.dlFinished _ true _ => true
  | _ => false

/-- For events that provably do not change the camera state, both C3
implications hold. -/
theorem camPreservedCases {s : State} {e : Ev}
    (hcam : (exec s e).1.m_cameraState = s.m_cameraState) :
    ((exec s e).1.m_cameraState = CameraState.Exposing →
      s.m_cameraState ≠ CameraState.Exposing →
      isStartExposureEv e = true ∧ s.m_cameraState = CameraState.Idle) ∧
    (s.m_cameraState = CameraState.Exposing →
      (exec s e).1.m_cameraState = CameraState.Idle →
      e = Ev.callAbortExposure ∨ isDlSuccessEv e = true) := by
  constructor
  · intro h1 h2
    exact absurd (hcam.symm.trans h1) h2
  · intro h1 h2
    exact absurd (h1.symm.trans (hcam.symm.trans h2)) (by decide)

/-- C3: in any reachable state, a step makes the camera state Exposing
only when the event is a `startExposure` call and the state was Idle;
and a step takes the camera state from Exposing to Idle only on an
`abortExposure` call or on the successful completion of the
notification-triggered image download. -/
theorem C3_camera_state_machine (s : State) (e : Ev) (_hr : Reach s)
    (_he : enabled s e = true) :
    ((exec s e).1.m_cameraState = CameraState.Exposing →
      s.m_cameraState ≠ CameraState.Exposing →
      isStartExposureEv e = true ∧ s.m_cameraState = CameraState.Idle) ∧
    (s.m_cameraState = CameraState.Exposing →
      (exec s e).1.m_cameraState = CameraState.Idle →
      e = Ev.callAbortExposure ∨ isDlSuccessEv e = true) := by
  cases e with
  | wsConnected =>
    refine camPreservedCases ?_
    show (onWebSocketConnectedF s).1.m_cameraState = s.m_cameraState
    unfold onWebSocketConnectedF
    dsimp only
    exact (sendCommand_frame _ _ _ _).2.2.1
  | wsDisconnected => exact camPreservedCases rfl
  | textMessage m =>
    have hcam := textMessage_cam s m
    constructor
    · intro h1 h2
      rcases hcam with h | h
      · exact absurd (h.symm.trans h1) (by decide)
      · exact absurd (h.symm.trans h1) h2
    · intro h1 h2
      rcases hcam with h | h
      · exact absurd (h.symm.trans h2) (by decide)
      · exact absurd (h1.symm.trans (h.symm.trans h2)) (by decide)
  | statusTick => exact camPreservedCases ((updateStatus_frame s).2.2.1)
  | callConnect host port =>
    refine camPreservedCases ?_
    show (connectToTelescopeF s host port).1.m_cameraState = s.m_cameraState
    unfold connectToTelescopeF
    split <;> rfl
  | callDisconnect =>
    refine camPreservedCases ?_
    show (disconnectFromTelescopeF s).1.m_cameraState = s.m_cameraState
    unfold disconnectFromTelescopeF
    dsimp only
    split <;> rfl
  | callSetConnected b =>
    refine camPreservedCases ?_
    show (setConnectedF s b).1.m_cameraState = s.m_cameraState
    unfold setConnectedF
    split <;> rfl
  | callSetCameraConnected b =>
    refine camPreservedCases ?_
    show (setCameraConnectedF s b).1.m_cameraState = s.m_cameraState
    unfold setCameraConnectedF
    split <;> rfl
  | callGoto ra dec =>
    refine camPreservedCases ?_
    show (gotoPositionF s ra dec).1.m_cameraState = s.m_cameraState
    unfold gotoPositionF
    dsimp only
    split
    · rfl
    · exact (sendCommand_frame s _ _ _).2.2.1
  | callSync ra dec =>
    refine camPreservedCases ?_
    show (syncPositionF s ra dec).1.m_cameraState = s.m_cameraState
    unfold syncPositionF
    dsimp only
    split
    · rfl
    · exact (sendCommand_frame s _ _ _).2.2.1
  | callAbortMotion =>
    refine camPreservedCases ?_
    show (abortMotionF s).1.m_cameraState = s.m_cameraState
    unfold abortMotionF
    dsimp only
    split
    · rfl
    · exact (sendCommand_frame s _ _ _).2.2.1
  | callPark =>
    refine camPreservedCases ?_
    show (parkMountF s).1.m_cameraState = s.m_cameraState
    unfold parkMountF
    dsimp only
    split
    · rfl
    · exact (sendCommand_frame s _ _ _).2.2.1
  | callUnpark =>
    refine camPreservedCases ?_
    show (unparkMountF s).1.m_cameraState = s.m_cameraState
    unfold unparkMountF
    dsimp only
    split
    · rfl
    · exact (sendCommand_frame s _ _ _).2.2.1
  | callInitialize dateStr timeStr =>
    refine camPreservedCases ?_
    show (initializeTelescopeF s dateStr timeStr).1.m_cameraState = s.m_cameraState
    unfold initializeTelescopeF
    dsimp only
    split
    · rfl
    · exact (sendCommand_frame s _ _ _).2.2.1
  | callMove d sp =>
    refine camPreservedCases ?_
    show (moveDirectionF s d sp).1.m_cameraState = s.m_cameraState
    unfold moveDirectionF
    dsimp only
    split
    · rfl
    · split
      · rfl
      · exact (sendCommand_frame s _ _ _).2.2.1
  | callSetTracking b =>
    refine camPreservedCases ?_
    show (setTrackingF s b).1.m_cameraState = s.m_cameraState
    unfold setTrackingF
    dsimp only
    split
    · rfl
    · exact (sendCommand_frame s _ _ _).2.2.1
  | callTakeSnapshot e2 iso =>
    refine camPreservedCases ?_
    show (takeSnapshotF s e2 iso).1.m_cameraState = s.m_cameraState
    unfold takeSnapshotF
    dsimp only
    split
    · rfl
    · exact (sendCommand_frame _ _ _ _).2.2.1
  | callStartExposure d iso now =>
    constructor
    · intro h1 h2
      rcases startExposure_cam s d iso now with h | ⟨hidle, _⟩
      · exact absurd (h.symm.trans h1) h2
      · exact ⟨rfl, hidle⟩
    · intro h1 h2
      rcases startExposure_cam s d iso now with h | ⟨hidle, _⟩
      · exact absurd (h1.symm.trans (h.symm.trans h2)) (by decide)
      · exact absurd (h1.symm.trans hidle) (by decide)
  | callAbortExposure =>
    constructor
    · intro h1 h2
      rcases abortExposure_cam s with h | ⟨_, hidle⟩
      · exact absurd (h.symm.trans h1) h2
      · exact absurd (hidle.symm.trans h1) (by decide)
    · intro h1 h2
      exact Or.inl rfl
  | callSetGain g => exact camPreservedCases (setGain_cam s g)
  | callGetCameraMode =>
    refine camPreservedCases ?_
    show (getCameraModeF s).1.m_cameraState = s.m_cameraState
    unfold getCameraModeF
    dsimp only
    split
    · rfl
    · exact (sendCommand_frame s _ _ _).2.2.1
  | callGetCaptureParameters =>
    refine camPreservedCases ?_
    show (getCaptureParametersF s).1.m_cameraState = s.m_cameraState
    unfold getCaptureParametersF
    dsimp only
    split
    · rfl
    · exact (sendCommand_frame s _ _ _).2.2.1
  | callGetCameraInfo =>
    refine camPreservedCases ?_
    show (getCameraInfoF s).1.m_cameraState = s.m_cameraState
    unfold getCameraInfoF
    dsimp only
    split
    · rfl
    · exact (sendCommand_frame s _ _ _).2.2.1
  | callSetCaptureParameters e2 iso =>
    refine camPreservedCases ?_
    show (setCaptureParametersF s e2 iso).1.m_cameraState = s.m_cameraState
    unfold setCaptureParametersF
    dsimp only
    split
    · rfl
    · exact (sendCommand_frame s _ _ _).2.2.1
  | callSetManualMode =>
    refine camPreservedCases ?_
    show (setCameraManualModeF s).1.m_cameraState = s.m_cameraState
    unfold setCameraManualModeF
    dsimp only
    split
    · rfl
    · exact (sendCommand_frame s _ _ _).2.2.1
  | callSetAutoMode =>
    refine camPreservedCases ?_
    show (setCameraAutoModeF s).1.m_cameraState = s.m_cameraState
    unfold setCameraAutoModeF
    dsimp only
    split
    · rfl
    · exact (sendCommand_frame s _ _ _).2.2.1
  | callSendCommand c d params => exact camPreservedCases ((sendCommand_frame s c d params).2.2.1)
  | reqFinished i ok bytes decodeOk => exact camPreservedCases (reqFinished_cam s i ok bytes decodeOk)
  | dlFinished i ok bytes =>
    constructor
    · intro h1 h2
      exfalso
      have hcam : (onImageDownloadFinishedF s i ok bytes).1.m_cameraState = CameraState.Idle ∨
          (onImageDownloadFinishedF s i ok bytes).1.m_cameraState = CameraState.Error := by
        unfold onImageDownloadFinishedF
        dsimp only
        split
        · exact Or.inl rfl
        · exact Or.inr rfl
      rcases hcam with h | h
      · exact absurd (h.symm.trans h1) (by decide)
      · exact absurd (h.symm.trans h1) (by decide)
    · intro h1 h2
      cases ok with
      | true => exact Or.inr rfl
      | false =>
        exfalso
        have hcam : (onImageDownloadFinishedF s i false bytes).1.m_cameraState =
            CameraState.Error := rfl
        exact absurd (hcam.symm.trans h2) (by decide)

/-- A reachable state in which the camera is Exposing. -/
def c3state : State :=
  (exec (exec (exec (exec initState (Ev.callConnect "10.0.0.1" 80)).1 Ev.wsConnected).1
    (Ev.callSetConnected true)).1 (Ev.callStartExposure 2 400 "2025-01-01T00:00:00")).1

/-- Witness for C3: aborting from the Exposing state reaches Idle via
one of the two admitted exits. -/
theorem C3_camera_state_machine_witness :
    c3state.m_cameraState = CameraState.Exposing ∧
    (exec c3state Ev.callAbortExposure).1.m_cameraState = CameraState.Idle ∧
    (Ev.callAbortExposure = Ev.callAbortExposure ∨
     isDlSuccessEv Ev.callAbortExposure = true) :=
  ⟨by decide, by decide,
   (C3_camera_state_machine c3state Ev.callAbortExposure
      (Reach.step _ (Ev.callStartExposure 2 400 "2025-01-01T00:00:00")
        (Reach.step _ (Ev.callSetConnected true)
          (Reach.step _ Ev.wsConnected
            (Reach.step _ (Ev.callConnect "10.0.0.1" 80) Reach.init (by decide))
            (by decide))
          (by decide))
        (by decide))
      (by decide)).2
     (by decide) (by decide)⟩

/-! ## Claim C4 -/

/-- A reachable state: physically connected, camera logically
connected, both timers running. -/
def c4state : State :=
  (exec (exec (exec initState (Ev.callConnect "10.0.0.1" 80)).1 Ev.wsConnected).1
    (Ev.callSetCameraConnected true)).1

/-- C4 evidence: on a link-failure `disconnected` transport event the
handler forces the mount logical flag false, stops both timers and
raises the disconnected signal — but it leaves
`isCameraLogicallyConnected` **true**: the camera logical flag is
cleared only by the caller-initiated `disconnectFromTelescope` path,
contradicting the requirement that both logical flags reset when the
physical link drops. -/
theorem C4_camera_flag_survives_link_failure :
    Reach c4state ∧
    c4state.m_status.isCameraLogicallyConnected = true ∧
    (exec c4state Ev.wsDisconnected).1.m_status.isCameraLogicallyConnected = true ∧
    (exec c4state Ev.wsDisconnected).1.m_status.isLogicallyConnected = false ∧
    (exec c4state Ev.wsDisconnected).1.m_status.isConnected = false ∧
    (exec c4state Ev.wsDisconnected).1.statusTimerActive = false ∧
    (exec c4state Ev.wsDisconnected).1.pingTimerActive = false ∧
    (exec c4state Ev.wsDisconnected).2 = [Effect.sig "disconnected"] :=
  ⟨Reach.step _ (Ev.callSetCameraConnected true)
     (Reach.step _ Ev.wsConnected
       (Reach.step _ (Ev.callConnect "10.0.0.1" 80) Reach.init (by decide))
       (by decide))
     (by decide),
   by decide, by decide, by decide, by decide, by decide, by decide, by decide⟩

/-! ## Claim C7 -/

/-- The (command, destination) pair of the rotation query selected at a
given rotation counter. -/
def rotQueryName (n : Nat) : String × String :=
  match n % 3 with
  | 0 => ("GetStatus", "Mount")
  | 1 => ("GetStatus", "Environment")
  | _ => ("GetCaptureParameters", "Camera")

theorem sendCommand_rot (s : State) (c d : String) (p : JObject) :
    (sendCommandF s c d p).1.m_statusRotation = s.m_statusRotation := by
  unfold sendCommandF createCommandF consumeSeq
  dsimp only
  split <;> rfl

theorem sendCommand_effects_connected (s : State) (c d : String) (p : JObject)
    (h : isConnectedF s = true) :
    (sendCommandF s c d p).2 = [Effect.wireSend (createCommandJ c d p s.m_nextSequenceId)] := by
  unfold sendCommandF createCommandF consumeSeq
  dsimp only
  have h2 : isConnectedF
      { s with
        m_nextSequenceId := s.m_nextSequenceId + 1
        cmdIds := s.cmdIds ++ [s.m_nextSequenceId] } = true := h
  rw [h2]
  simp

/-- The session after: connect, one rotation tick, link failure,
reconnect.  The rotation counter stands at 1, not 0. -/
def c7state : State :=
  (exec (exec (exec (exec (exec (exec initState
    (Ev.callConnect "10.0.0.1" 80)).1 Ev.wsConnected).1 Ev.statusTick).1
    Ev.wsDisconnected).1 (Ev.callConnect "10.0.0.1" 80)).1 Ev.wsConnected).1

/-- C7 counterexample: after a disconnect/reconnect the rotation does
not restart at query index 0 — the counter is never reset, so the first
rotation tick after the reconnect sends the *environment* status query
(index 1), not the mount status query the claim requires. -/
theorem C7_rotation_not_reset_counterexample :
    Reach c7state ∧
    c7state.statusTimerActive = true ∧
    c7state.m_statusRotation = 1 ∧
    (exec c7state Ev.statusTick).2 =
      [Effect.wireSend (createCommandJ "GetStatus" "Environment" [] 2003)] ∧
    jToString (createCommandJ "GetStatus" "Environment" [] 2003) "Destination" ≠ "Mount" :=
  ⟨Reach.step _ Ev.wsConnected
     (Reach.step _ (Ev.callConnect "10.0.0.1" 80)
       (Reach.step _ Ev.wsDisconnected
         (Reach.step _ Ev.statusTick
           (Reach.step _ Ev.wsConnected
             (Reach.step _ (Ev.callConnect "10.0.0.1" 80) Reach.init (by decide))
             (by decide))
           (by decide))
         (by decide))
       (by decide))
     (by decide),
   by decide, by decide, by decide, by decide⟩

/-- C7 as amended: each `updateStatus` invocation while connected sends
exactly the query selected by the rotation counter modulo 3 (0 mount,
1 environment, 2 camera capture parameters) and advances the counter by
one; the counter survives disconnect, reconnect and caller disconnect
unchanged (it is never reset); and the first message sent after a
reconnect is nonetheless the mount status query, because the connected
handler itself sends `GetStatus`/`Mount` directly. -/
theorem C7_amended_rotation (s : State) (hconn : isConnectedF s = true) :
    (updateStatusF s).1.m_statusRotation = s.m_statusRotation + 1 ∧
    (updateStatusF s).2 =
      [Effect.wireSend (createCommandJ (rotQueryName s.m_statusRotation).1
        (rotQueryName s.m_statusRotation).2 [] s.m_nextSequenceId)] ∧
    (exec s Ev.wsDisconnected).1.m_statusRotation = s.m_statusRotation ∧
    (exec s Ev.wsConnected).1.m_statusRotation = s.m_statusRotation ∧
    (exec s Ev.wsConnected).2 =
      [Effect.wireSend (createCommandJ "GetStatus" "Mount" [] s.m_nextSequenceId),
       Effect.sig "connected"] ∧
    (exec s Ev.callDisconnect).1.m_statusRotation = s.m_statusRotation := by
  have h3 : s.m_statusRotation % 3 = 0 ∨ s.m_statusRotation % 3 = 1 ∨
      s.m_statusRotation % 3 = 2 := by omega
  refine ⟨?_, ?_, rfl, ?_, ?_, ?_⟩
  · unfold updateStatusF
    rw [if_pos hconn]
    dsimp only
    rcases h3 with h | h | h <;> rw [h] <;> simp [sendCommand_rot]
  · unfold updateStatusF
    rw [if_pos hconn]
    dsimp only
    rcases h3 with h | h | h <;> rw [h] <;>
      simp [rotQueryName, h, hconn, sendCommand_effects_connected]
  · show (onWebSocketConnectedF s).1.m_statusRotation = s.m_statusRotation
    unfold onWebSocketConnectedF
    dsimp only
    exact sendCommand_rot _ _ _ _
  · show (onWebSocketConnectedF s).2 = _
    unfold onWebSocketConnectedF
    dsimp only
    rw [sendCommand_effects_connected]
    · rfl
    · rfl
  · show (disconnectFromTelescopeF s).1.m_statusRotation = s.m_statusRotation
    unfold disconnectFromTelescopeF
    dsimp only
    split <;> rfl

/-- A connected reachable state for the C7 witness. -/
def c7connState : State :=
  (exec (exec initState (Ev.callConnect "10.0.0.1" 80)).1 Ev.wsConnected).1

/-- Witness for the amended C7 at a concrete connected state. -/
theorem C7_amended_rotation_witness :
    (updateStatusF c7connState).1.m_statusRotation = c7connState.m_statusRotation + 1 ∧
    (updateStatusF c7connState).2 =
      [Effect.wireSend (createCommandJ (rotQueryName c7connState.m_statusRotation).1
        (rotQueryName c7connState.m_statusRotation).2 [] c7connState.m_nextSequenceId)] ∧
    (exec c7connState Ev.wsDisconnected).1.m_statusRotation = c7connState.m_statusRotation ∧
    (exec c7connState Ev.wsConnected).1.m_statusRotation = c7connState.m_statusRotation ∧
    (exec c7connState Ev.wsConnected).2 =
      [Effect.wireSend (createCommandJ "GetStatus" "Mount" [] c7connState.m_nextSequenceId),
       Effect.sig "connected"] ∧
    (exec c7connState Ev.callDisconnect).1.m_statusRotation = c7connState.m_statusRotation :=
  C7_amended_rotation c7connState (by decide)

end Origin
